import Mathlib

/-!
Verification development for the `wabbit-lang` repository: a lexer, parser,
pretty-printer, tree-walking interpreter and LLVM-IR emitter for the small
imperative language Wabbit.  The Python sources are embedded shallowly:
pure functions become Lean functions over `List Char` / `String`, loops
become fuel-indexed structural recursion (so that all definitions reduce in
the kernel), and fallible code returns `Except`.

Layout:
* `WLexer`   — `wabbit/wabbit/_lexer.py` (the lexer present in the sources).
* `WRound`   — Python arithmetic helpers: exact model of binary64 rounding
               (round to nearest, ties to even, unbounded exponent) used by
               Python's true division and `float()`.
* `WAst`     — the AST node model (fields follow the parser/formatter usage).
* `WSpecLex` — the outer package's lexer, modelled from the spec (its source
               file is not present; only its callers are).
* `WParser`  — `wabbit/_parser.py`.
* `WFormat`  — `wabbit/_format.py`.
* `WInterp`  — `wabbit/_interpret.py`.
* `WComp`    — `wabbit/wabbit/_compiler.py` (the declaration handler and the
               expression typing needed by the claims).
-/

namespace WLexer

/-- Errors that `tokenize` and its helpers can surface.  `syntaxError`
models `WabbitSyntaxError`, `indexError` an uncaught Python `IndexError`
(out-of-range string subscript), `keyError` an uncaught `KeyError`, and
`fuel` is the fuel-exhaustion marker of the embedding (proved unreachable). -/
inductive LexErr where
  | syntaxError (pos : Nat)
  | indexError
  | keyError
  | fuel
deriving DecidableEq, Repr

/-- Python `str.isdigit` restricted to ASCII (all relevant inputs are 7-bit). -/
def pyIsDigit (c : Char) : Bool :=
  48 ≤ c.toNat && c.toNat ≤ 57

/-- Python `str.isalpha` restricted to ASCII. -/
def pyIsAlpha (c : Char) : Bool :=
  (65 ≤ c.toNat && c.toNat ≤ 90) || (97 ≤ c.toNat && c.toNat ≤ 122)

/-- Python `str.isspace` restricted to ASCII. -/
def pyIsSpace (c : Char) : Bool :=
  c == ' ' || c == '\t' || c == '\n' || c == '\r' || c == '\x0b' || c == '\x0c'

/-- Python slice `text[a:b]` (with the usual clamping). -/
def pySlice (text : List Char) (a b : Nat) : List Char :=
  (text.take b).drop a

/-- `match_digits(text, start)`: the maximal run of digits at `start`. -/
def match_digits (text : List Char) (start : Nat) : List Char :=
  (text.drop start).takeWhile pyIsDigit

/-- `match_name(text, start)`: letters/underscores, then an optional run of
digits.  (The source's `if n > 0` guard is always true on the path where the
suffix is computed, because the letter run is non-empty there.) -/
def match_name (text : List Char) (start : Nat) : List Char :=
  let letters := (text.drop start).takeWhile (fun c => pyIsAlpha c || c == '_')
  if letters = [] then []
  else letters ++ match_digits text (start + letters.length)

/-- The `symbols` list of `match_symbol`. -/
def symbols : List (List Char) :=
  [['+'], ['-'], ['*'], ['/'], ['<'], ['>'], ['='],
   ['<', '='], ['>', '='], ['=', '='], ['!'], ['&', '&'], ['|', '|'],
   ['('], [')'], ['\x7b'], ['\x7d'], [';']]

/-- `match_symbol(text, start)`.  Faithful to the source's slips: the
two-character test looks at `text[:2]` (the start of the whole string,
not of the cursor) and returns the slice `text[start:2]`. -/
def match_symbol (text : List Char) (start : Nat) : Except LexErr (List Char) :=
  if 2 ≤ text.length ∧ text.take 2 ∈ symbols then
    .ok (pySlice text start 2)
  else
    match text.get? start with
    | none => .error .indexError
    | some c => if [c] ∈ symbols then .ok [c] else .ok []

/-- `match_block_comment(text, start)`.  After the scan for `*` the source
reads `text[n]` unconditionally, so an unterminated block comment raises
`IndexError`. -/
def match_block_comment (text : List Char) (start : Nat) : Except LexErr (List Char) :=
  if text.length < start + 4 then .ok []
  else if pySlice text start (start + 2) ≠ ['/', '*'] then .ok []
  else
    let k := ((text.drop (start + 2)).takeWhile (fun c => c ≠ '*')).length
    let n := start + 2 + k + 1
    match text.get? n with
    | none => .error .indexError
    | some c => if c = '/' then .ok (pySlice text start (n + 1)) else .ok []

/-- `match_line_comment(text, start)`.  Faithful to both source slips: the
returned lexeme is `text[:n+1]` (from position 0, not `start`), and when the
input ends without a newline the read `text[n]` raises `IndexError`. -/
def match_line_comment (text : List Char) (start : Nat) : Except LexErr (List Char) :=
  if text.length < start + 2 then .ok []
  else if pySlice text start (start + 2) ≠ ['/', '/'] then .ok []
  else
    let k := ((text.drop (start + 2)).takeWhile (fun c => c ≠ '\n')).length
    let n := start + 2 + k
    match text.get? n with
    | none => .error .indexError
    | some c => if c = '\n' then .ok (text.take (n + 1)) else .ok []

/-- `match_float(text, start)`.  Faithful to the source slip in the
leading-dot branch: the slice taken is `text[start : len(digits)+1]`
(missing `start +`). -/
def match_float (text : List Char) (start : Nat) : Except LexErr (List Char) :=
  let digits := match_digits text start
  if digits ≠ [] then
    let dotPos := start + digits.length
    if text.length ≤ dotPos then .ok []
    else if pySlice text dotPos (dotPos + 1) ≠ ['.'] then .ok []
    else
      let more := match_digits text (dotPos + 1)
      if more ≠ [] then .ok (pySlice text start (dotPos + more.length + 1))
      else .ok (pySlice text start (dotPos + 1))
  else
    match text.get? start with
    | none => .error .indexError
    | some c =>
      if c = '.' then
        let digits2 := match_digits text (start + 1)
        if digits2 ≠ [] then .ok (pySlice text start (digits2.length + 1))
        else .ok []
      else .ok []

/-- `match_whitespace(text, start)`. -/
def match_whitespace (text : List Char) (start : Nat) : List Char :=
  (text.drop start).takeWhile pyIsSpace

/-- The token classes of `_lexer.py` (each Python class becomes a kind tag;
a token also carries its lexeme and position). -/
inductive TokKind0 where
  | float | digits | name
  | print | const | var
  | plus | minus | multiply | divide
  | less | more | equal | lessEq | moreEq | doubleEq
  | logicalNot | logicalAnd | logicalOr
  | openParens | closeParens | openCurlyBrace | closeCurlyBrace | semicolon
deriving DecidableEq, Repr

structure Token0 where
  kind : TokKind0
  value : String
  pos : Nat
deriving DecidableEq, Repr

/-- The `_TOKEN_CLS` dictionary (symbol lexeme to token class). -/
def tokenClsOf (sym : String) : Option TokKind0 :=
  if sym = "+" then some .plus
  else if sym = "-" then some .minus
  else if sym = "*" then some .multiply
  else if sym = "/" then some .divide
  else if sym = "<" then some .less
  else if sym = ">" then some .more
  else if sym = "=" then some .equal
  else if sym = "<=" then some .lessEq
  else if sym = ">=" then some .moreEq
  else if sym = "==" then some .doubleEq
  else if sym = "!" then some .logicalNot
  else if sym = "&&" then some .logicalAnd
  else if sym = "||" then some .logicalOr
  else if sym = "(" then some .openParens
  else if sym = ")" then some .closeParens
  else if sym = "\x7b" then some .openCurlyBrace
  else if sym = "\x7d" then some .closeCurlyBrace
  else if sym = ";" then some .semicolon
  else none

/-- The `_NAME_CLS` dictionary with its `.get(m, Name)` default: only
`print`, `const` and `var` are keywords of this lexer. -/
def nameClsOf (m : String) : TokKind0 :=
  if m = "print" then .print
  else if m = "const" then .const
  else if m = "var" then .var
  else .name

/-- One iteration of the `tokenize` loop: the `if/elif` matcher chain.
Returns the optional emitted token and the matched lexeme (the cursor
advances by its length).  Match order is the source's: block comment, line
comment, name, float, digits, symbol, whitespace, else `WabbitSyntaxError`. -/
def tokenizeStep (text : List Char) (pos : Nat) :
    Except LexErr (Option Token0 × List Char) :=
  match match_block_comment text pos with
  | .error e => .error e
  | .ok mbc =>
    if mbc = [] then
      match match_line_comment text pos with
      | .error e => .error e
      | .ok mlc =>
        if mlc = [] then
          match match_name text pos with
          | [] =>
            match match_float text pos with
            | .error e => .error e
            | .ok mf =>
              if mf = [] then
                match match_digits text pos with
                | [] =>
                  match match_symbol text pos with
                  | .error e => .error e
                  | .ok ms =>
                    if ms = [] then
                      match match_whitespace text pos with
                      | [] => .error (.syntaxError pos)
                      | w :: ws => .ok (none, w :: ws)
                    else
                      match tokenClsOf (String.mk ms) with
                      | some k => .ok (some ⟨k, String.mk ms, pos⟩, ms)
                      | none => .error .keyError
                | d :: ds =>
                  .ok (some ⟨.digits, String.mk (d :: ds), pos⟩, d :: ds)
              else .ok (some ⟨.float, String.mk mf, pos⟩, mf)
          | c :: cs =>
            .ok (some ⟨nameClsOf (String.mk (c :: cs)), String.mk (c :: cs), pos⟩,
                 c :: cs)
        else .ok (none, mlc)
    else .ok (none, mbc)

/-- The `tokenize` scan loop, indexed by fuel so that it reduces in the
kernel.  Fuel exhaustion yields `.error .fuel`; `tokenize` supplies enough
fuel and the development proves `.fuel` unreachable. -/
def tokenizeAux : Nat → List Char → Nat → Except LexErr (List Token0)
  | 0, _, _ => .error .fuel
  | fuel + 1, text, pos =>
    if pos < text.length then
      match tokenizeStep text pos with
      | .error e => .error e
      | .ok (t?, m) =>
        match tokenizeAux fuel text (pos + m.length) with
        | .error e => .error e
        | .ok toks =>
          .ok (match t? with
               | some t => t :: toks
               | none => toks)
    else .ok []

/-- `tokenize(text)` of `wabbit/wabbit/_lexer.py`. -/
def tokenize (s : String) : Except LexErr (List Token0) :=
  tokenizeAux (s.data.length + 1) s.data 0

end WLexer

deriving instance DecidableEq for Except

namespace WRound

/-- Fuel-indexed base-2 logarithm on `ℕ` (so that it reduces in the kernel;
`natLog2 n n` equals `Nat.log2 n`, the fuel only bounds the recursion depth). -/
def natLog2F : Nat → Nat → Nat
  | 0, _ => 0
  | fuel + 1, n => if 2 ≤ n then natLog2F fuel (n / 2) + 1 else 0

/-- Base-2 logarithm: the greatest `p` with `2 ^ p ≤ n` (0 for `n = 0`). -/
def natLog2 (n : Nat) : Nat :=
  natLog2F n n

/-- Does `a / b ≥ 2 ^ k` hold (for positive naturals `a`, `b` and an integer
exponent `k`), decided by cross-multiplication? -/
def qGePow2 (a b : ℕ) (k : ℤ) : Bool :=
  if 0 ≤ k then b * 2 ^ k.toNat ≤ a else b ≤ a * 2 ^ (-k).toNat

/-- Round the positive rational `a / b` (`a, b ≥ 1`) to the nearest binary64
value (round to nearest, ties to even, unbounded exponent range): returns the
binary exponent `e` and the 53-bit significand `t` of the result `t * 2^(e-52)`.
This is the value CPython produces for `a / b` and `float(...)` throughout
the double range.  The exponent is located with `natLog2` and one comparison,
the significand by integer division with a half-even tie break. -/
def roundPosCore (a b : ℕ) : ℤ × ℕ :=
  let g : ℤ := (natLog2 a : ℤ) - (natLog2 b : ℤ)
  let e : ℤ := if qGePow2 a b g then g else g - 1
  let s : ℤ := 52 - e
  let A : ℕ := a * 2 ^ (max s 0).toNat
  let B : ℕ := b * 2 ^ (max (-s) 0).toNat
  let t : ℕ := A / B
  let r : ℕ := A % B
  let t' : ℕ :=
    if 2 * r < B then t
    else if B < 2 * r then t + 1
    else if t % 2 = 0 then t else t + 1
  (e, t')

/-- The nearest binary64 value to the positive rational `a / b`, as a rational. -/
def roundPosRatToDouble (a b : ℕ) : ℚ :=
  let p := roundPosCore a b
  (p.2 : ℚ) * (2 : ℚ) ^ (p.1 - 52)

/-- Round a rational to the nearest binary64 value (ties to even). -/
def roundRatToDouble (x : ℚ) : ℚ :=
  if x = 0 then 0
  else if 0 < x then roundPosRatToDouble x.num.toNat x.den
  else -roundPosRatToDouble (-x).num.toNat (-x).den

/-- Python `int(x)` on a float value: truncation toward zero. -/
def ratTrunc (q : ℚ) : ℤ :=
  if 0 ≤ q then q.floor else -((-q).floor)

/-- Truncation toward zero of the binary64 rounding of the positive rational
`a / b`: `⌊t * 2^(e-52)⌋` computed on integers (same `roundPosCore`). -/
def truncPosRoundDiv (a b : ℕ) : ℕ :=
  let p := roundPosCore a b
  if 52 ≤ p.1 then p.2 * 2 ^ (p.1 - 52).toNat
  else p.2 / 2 ^ (52 - p.1).toNat

end WRound

namespace WAst

/-- A Wabbit `Type` node (`_ast.py`: `Type(Node)` with a `name` field; the
parser fills `name` with the lexeme of a NAME token). -/
structure WType where
  location : Option Nat
  name : String
deriving DecidableEq, Repr

/-- Modelled from the spec: the AST node classes of the outer package's
`_ast.py`, which is not under the sources (only its callers are: the parser,
formatter and interpreter).  Fields follow §3.2 of the spec and the callers'
constructions exactly: every node carries an optional source position
(`location`), expression and statement variants are as listed there.  The
`value` of `Integer`/`Float` is the lexeme string, `Character.value` the
(unquoted) character string, operations are the operator lexemes. -/
inductive Node where
  | Integer (location : Option Nat) (value : String)
  | Float (location : Option Nat) (value : String)
  | Boolean (location : Option Nat) (value : Bool)
  | Character (location : Option Nat) (value : String)
  | Name (location : Option Nat) (value : String)
  | BinOp (location : Option Nat) (operation : String) (left : Node) (right : Node)
  | UnaryOp (location : Option Nat) (operation : String) (operand : Node)
  | LogicalOp (location : Option Nat) (operation : String) (left : Node) (right : Node)
  | ParenExpr (location : Option Nat) (value : Node)
  | Assignment (location : Option Nat) (left : Node) (right : Node)
  | PrintStatement (location : Option Nat) (value : Node)
  | VarDecl (location : Option Nat) (name : Node) (type_ : Option WType) (value : Option Node)
  | ConstDecl (location : Option Nat) (name : Node) (value : Node) (type_ : Option WType)
  | ExprAsStatement (expr : Node)
  | IfElse (location : Option Nat) (test : Node) (body : Node) (else_body : Option Node)
  | While (location : Option Nat) (test : Node) (body : Node)
  | Break (location : Option Nat)
  | Continue (location : Option Nat)
  | Statements (location : Option Nat) (nodes : List Node)
  | FuncArg (location : Option Nat) (name : Node) (type_ : WType)
  | FuncDef (location : Option Nat) (name : Node) (args : List Node) (return_type : WType)
      (body : Node)
  | Return (location : Option Nat) (value : Node)
  | FuncCall (location : Option Nat) (name : Node) (args : List Node)
deriving Repr

/-- Erase every source position of a node (fuel-indexed so that it reduces in
the kernel; the fuel bounds the tree depth and is benign: with fuel at least
the depth the result is position-free).  Used to compare ASTs "ignoring
source positions". -/
def strip : Nat → Node → Node
  | 0, n => n
  | fuel + 1, n =>
    match n with
    | .Integer _ v => .Integer none v
    | .Float _ v => .Float none v
    | .Boolean _ v => .Boolean none v
    | .Character _ v => .Character none v
    | .Name _ v => .Name none v
    | .BinOp _ op l r => .BinOp none op (strip fuel l) (strip fuel r)
    | .UnaryOp _ op a => .UnaryOp none op (strip fuel a)
    | .LogicalOp _ op l r => .LogicalOp none op (strip fuel l) (strip fuel r)
    | .ParenExpr _ v => .ParenExpr none (strip fuel v)
    | .Assignment _ l r => .Assignment none (strip fuel l) (strip fuel r)
    | .PrintStatement _ v => .PrintStatement none (strip fuel v)
    | .VarDecl _ nm t v => .VarDecl none (strip fuel nm) (t.map fun ty => ⟨none, ty.name⟩)
        (v.map (strip fuel))
    | .ConstDecl _ nm v t => .ConstDecl none (strip fuel nm) (strip fuel v)
        (t.map fun ty => ⟨none, ty.name⟩)
    | .ExprAsStatement e => .ExprAsStatement (strip fuel e)
    | .IfElse _ t b eb => .IfElse none (strip fuel t) (strip fuel b) (eb.map (strip fuel))
    | .While _ t b => .While none (strip fuel t) (strip fuel b)
    | .Break _ => .Break none
    | .Continue _ => .Continue none
    | .Statements _ ns => .Statements none (ns.map (strip fuel))
    | .FuncArg _ nm t => .FuncArg none (strip fuel nm) ⟨none, t.name⟩
    | .FuncDef _ nm args rt b => .FuncDef none (strip fuel nm) (args.map (strip fuel))
        ⟨none, rt.name⟩ (strip fuel b)
    | .Return _ v => .Return none (strip fuel v)
    | .FuncCall _ nm args => .FuncCall none (strip fuel nm) (args.map (strip fuel))

/-- A fully parenthesised, tag-bearing rendering of a node (fuel-indexed).
Two nodes with different `shape` are different; used to discriminate concrete
ASTs (the `Node` type has no derived decidable equality because of the nested
lists). -/
def shape : Nat → Node → String
  | 0, _ => "..."
  | fuel + 1, n =>
    match n with
    | .Integer _ v => "Int:" ++ v
    | .Float _ v => "Flt:" ++ v
    | .Boolean _ v => if v then "Bool:true" else "Bool:false"
    | .Character _ v => "Chr:" ++ v
    | .Name _ v => "Nm:" ++ v
    | .BinOp _ op l r => "(" ++ shape fuel l ++ " " ++ op ++ " " ++ shape fuel r ++ ")"
    | .UnaryOp _ op a => "(" ++ op ++ shape fuel a ++ ")"
    | .LogicalOp _ op l r =>
        "L(" ++ shape fuel l ++ " " ++ op ++ " " ++ shape fuel r ++ ")"
    | .ParenExpr _ v => "P(" ++ shape fuel v ++ ")"
    | .Assignment _ l r => "(" ++ shape fuel l ++ " = " ++ shape fuel r ++ ")"
    | .PrintStatement _ v => "print[" ++ shape fuel v ++ "]"
    | .VarDecl _ nm t v =>
        "var[" ++ shape fuel nm ++ "," ++ (match t with | some ty => ty.name | none => "-")
          ++ "," ++ (match v with | some e => shape fuel e | none => "-") ++ "]"
    | .ConstDecl _ nm v t =>
        "const[" ++ shape fuel nm ++ "," ++ (match t with | some ty => ty.name | none => "-")
          ++ "," ++ shape fuel v ++ "]"
    | .ExprAsStatement e => "stmt[" ++ shape fuel e ++ "]"
    | .IfElse _ t b eb =>
        "if[" ++ shape fuel t ++ ";" ++ shape fuel b ++ ";"
          ++ (match eb with | some e => shape fuel e | none => "-") ++ "]"
    | .While _ t b => "while[" ++ shape fuel t ++ ";" ++ shape fuel b ++ "]"
    | .Break _ => "break"
    | .Continue _ => "continue"
    | .Statements _ ns =>
        "\x7b" ++ String.intercalate " " (ns.map (shape fuel)) ++ "\x7d"
    | .FuncArg _ nm t => "arg[" ++ shape fuel nm ++ " " ++ t.name ++ "]"
    | .FuncDef _ nm args rt b =>
        "func[" ++ shape fuel nm ++ "(" ++ String.intercalate "," (args.map (shape fuel))
          ++ ")" ++ rt.name ++ ";" ++ shape fuel b ++ "]"
    | .Return _ v => "return[" ++ shape fuel v ++ "]"
    | .FuncCall _ nm args =>
        "call[" ++ shape fuel nm ++ "(" ++ String.intercalate "," (args.map (shape fuel))
          ++ ")]"

end WAst

namespace WSpecLex

/-- Errors of the outer-package pipeline: `syntaxError` models
`WabbitSyntaxError`, `indexError` an uncaught Python `IndexError`, and
`fuel` is the embedding's fuel-exhaustion marker. -/
inductive PErr where
  | syntaxError (pos : Nat)
  | indexError
  | fuel
deriving DecidableEq, Repr

/-- The token kinds of the outer package (`Token.type` strings of its
parser; the closed set of §3.1 of the spec). -/
inductive TK where
  | INTEGER | FLOAT | CHAR | NAME
  | PRINT | VAR | CONST | IF | ELSE | WHILE | BREAK | CONTINUE | FUNC
  | RETURN | TRUE | FALSE
  | ADD | SUB | MULTIPLY | DIVIDE
  | LESS | MORE | EQUAL | LESS_EQ | MORE_EQ | DOUBLE_EQ | NOT_EQ
  | LOGICAL_NOT | LOGICAL_AND | LOGICAL_OR
  | OPEN_PARENS | CLOSE_PARENS | OPEN_CURLY_BRACE | CLOSE_CURLY_BRACE
  | SEMICOLON | COMMA
deriving DecidableEq, Repr

/-- A token of the outer package: kind, exact lexeme, byte offset. -/
structure PTok where
  type : TK
  value : String
  pos : Nat
deriving DecidableEq, Repr

/-- Keyword table (§3.1): lexemes that are keywords rather than `NAME`s. -/
def keywordOf (m : String) : Option TK :=
  if m = "print" then some .PRINT
  else if m = "var" then some .VAR
  else if m = "const" then some .CONST
  else if m = "if" then some .IF
  else if m = "else" then some .ELSE
  else if m = "while" then some .WHILE
  else if m = "break" then some .BREAK
  else if m = "continue" then some .CONTINUE
  else if m = "func" then some .FUNC
  else if m = "return" then some .RETURN
  else if m = "true" then some .TRUE
  else if m = "false" then some .FALSE
  else none

/-- Two-character symbols (§4.B rule 7). -/
def twoCharSymOf (a b : Char) : Option TK :=
  if a = '<' ∧ b = '=' then some .LESS_EQ
  else if a = '>' ∧ b = '=' then some .MORE_EQ
  else if a = '=' ∧ b = '=' then some .DOUBLE_EQ
  else if a = '!' ∧ b = '=' then some .NOT_EQ
  else if a = '&' ∧ b = '&' then some .LOGICAL_AND
  else if a = '|' ∧ b = '|' then some .LOGICAL_OR
  else none

/-- One-character symbols (§4.B rule 8). -/
def oneCharSymOf (a : Char) : Option TK :=
  if a = '+' then some .ADD
  else if a = '-' then some .SUB
  else if a = '*' then some .MULTIPLY
  else if a = '/' then some .DIVIDE
  else if a = '<' then some .LESS
  else if a = '>' then some .MORE
  else if a = '=' then some .EQUAL
  else if a = '!' then some .LOGICAL_NOT
  else if a = '(' then some .OPEN_PARENS
  else if a = ')' then some .CLOSE_PARENS
  else if a = '\x7b' then some .OPEN_CURLY_BRACE
  else if a = '\x7d' then some .CLOSE_CURLY_BRACE
  else if a = ';' then some .SEMICOLON
  else if a = ',' then some .COMMA
  else none

/-- First index (in the given list) at which the two-character sequence
`a b` occurs. -/
def findPair (a b : Char) : List Char → Option Nat
  | [] => none
  | [_] => none
  | x :: y :: rest =>
    if x = a ∧ y = b then some 0
    else (findPair a b (y :: rest)).map (· + 1)

/-- A printable ASCII character (for character literals). -/
def isPrintable (c : Char) : Bool :=
  32 ≤ c.toNat && c.toNat ≤ 126

/-- Modelled from the spec: one scanning step of the outer package's lexer
(`wabbit/_lexer.py` is not under the sources; only its callers are).
Follows §4.B's ordered rules exactly: 1 block comment (unterminated →
`SyntaxError`), 2 line comment (newline required, else `SyntaxError`),
3 identifier/keyword, 4 float, 5 integer, 6 character literal, 7 two-char
symbols, 8 one-char symbols, 9 whitespace; otherwise `SyntaxError` at the
cursor.  Returns the optional token and the number of characters consumed. -/
def specLexStep (text : List Char) (pos : Nat) :
    Except PErr (Option PTok × Nat) :=
  let rest := text.drop pos
  match rest with
  | [] => .error (.syntaxError pos)
  | c0 :: rest1 =>
    -- Rule 1: block comment `/* ... */`.
    if c0 = '/' ∧ rest1.head? = some '*' then
      match findPair '*' '/' (rest1.drop 1) with
      | some j => .ok (none, j + 4)
      | none => .error (.syntaxError pos)
    -- Rule 2: line comment `// ...` to the terminating newline.
    else if c0 = '/' ∧ rest1.head? = some '/' then
      match (rest1.drop 1).findIdx? (· = '\n') with
      | some j => .ok (none, j + 3)
      | none => .error (.syntaxError pos)
    -- Rule 3: identifier or keyword: `[A-Za-z_]+` then optional digits.
    else if WLexer.pyIsAlpha c0 || c0 = '_' then
      let letters := rest.takeWhile (fun c => WLexer.pyIsAlpha c || c = '_')
      let digits := (rest.drop letters.length).takeWhile WLexer.pyIsDigit
      let lexeme := letters ++ digits
      let s := String.mk lexeme
      match keywordOf s with
      | some k => .ok (some ⟨k, s, pos⟩, lexeme.length)
      | none => .ok (some ⟨.NAME, s, pos⟩, lexeme.length)
    -- Rules 4 and 5: float (digits `.` digits?, or `.` digits), else integer.
    else if WLexer.pyIsDigit c0 then
      let digits := rest.takeWhile WLexer.pyIsDigit
      if (rest.drop digits.length).head? = some '.' then
        let more := (rest.drop (digits.length + 1)).takeWhile WLexer.pyIsDigit
        let lexeme := digits ++ '.' :: more
        .ok (some ⟨.FLOAT, String.mk lexeme, pos⟩, lexeme.length)
      else
        .ok (some ⟨.INTEGER, String.mk digits, pos⟩, digits.length)
    else if c0 = '.' ∧ (rest1.head?.map WLexer.pyIsDigit).getD false then
      let digits := rest1.takeWhile WLexer.pyIsDigit
      let lexeme := '.' :: digits
      .ok (some ⟨.FLOAT, String.mk lexeme, pos⟩, lexeme.length)
    -- Rule 6: character literal `'c'` or the escape `'\n'`.
    else if c0 = '\x27' then
      match rest1 with
      | '\\' :: 'n' :: '\x27' :: _ =>
        .ok (some ⟨.CHAR, String.mk ['\x27', '\\', 'n', '\x27'], pos⟩, 4)
      | c1 :: '\x27' :: _ =>
        if isPrintable c1 then
          .ok (some ⟨.CHAR, String.mk ['\x27', c1, '\x27'], pos⟩, 3)
        else .error (.syntaxError pos)
      | _ => .error (.syntaxError pos)
    -- Rules 7 and 8: two-character symbols before one-character symbols.
    else
      match rest1.head? with
      | some c1 =>
        match twoCharSymOf c0 c1 with
        | some k => .ok (some ⟨k, String.mk [c0, c1], pos⟩, 2)
        | none =>
          match oneCharSymOf c0 with
          | some k => .ok (some ⟨k, String.mk [c0], pos⟩, 1)
          | none =>
            -- Rule 9: whitespace is skipped.
            if WLexer.pyIsSpace c0 then
              .ok (none, (rest.takeWhile WLexer.pyIsSpace).length)
            else .error (.syntaxError pos)
      | none =>
        match oneCharSymOf c0 with
        | some k => .ok (some ⟨k, String.mk [c0], pos⟩, 1)
        | none =>
          if WLexer.pyIsSpace c0 then .ok (none, 1)
          else .error (.syntaxError pos)

/-- The scan loop of the modelled lexer. -/
def specTokenizeAux : Nat → List Char → Nat → Except PErr (List PTok)
  | 0, _, _ => .error .fuel
  | fuel + 1, text, pos =>
    if pos < text.length then
      match specLexStep text pos with
      | .error e => .error e
      | .ok (t?, adv) =>
        match specTokenizeAux fuel text (pos + adv) with
        | .error e => .error e
        | .ok toks =>
          .ok (match t? with
               | some t => t :: toks
               | none => toks)
    else .ok []

/-- Modelled from the spec: `tokenize` of the outer package's lexer. -/
def specTokenize (s : String) : Except PErr (List PTok) :=
  specTokenizeAux (s.data.length + 1) s.data 0

end WSpecLex

namespace WParser

open WSpecLex WAst

/-- `_TokenStream.eof`. -/
def ts_eof (toks : List PTok) (i : Nat) : Bool :=
  toks.length ≤ i

/-- `_TokenStream.current`: raises `IndexError` past the end (Python list
subscript). -/
def ts_current (toks : List PTok) (i : Nat) : Except PErr PTok :=
  match toks.get? i with
  | some t => .ok t
  | none => .error .indexError

/-- `_TokenStream.peek`. -/
def ts_peek (toks : List PTok) (i : Nat) (k : TK) : Option PTok :=
  match toks.get? i with
  | some t => if t.type = k then some t else none
  | none => none

/-- `_TokenStream.peek_one_of`. -/
def ts_peek_one_of (toks : List PTok) (i : Nat) (ks : List TK) : Option PTok :=
  match toks.get? i with
  | some t => if t.type ∈ ks then some t else none
  | none => none

/-- `_TokenStream.peek_all`, with the source's `>=` bound (a match ending at
the last token is reported as no match). -/
def ts_peek_all (toks : List PTok) (i : Nat) (ks : List TK) : Option PTok :=
  if toks.length ≤ i then none
  else if toks.length ≤ i + ks.length then none
  else
    let window := (toks.drop i).take ks.length
    if (window.zip ks).all (fun p => p.1.type = p.2) then toks.get? i
    else none

/-- `_TokenStream.expect`: returns the matched token and the advanced index. -/
def ts_expect (toks : List PTok) (i : Nat) (k : TK) : Except PErr (PTok × Nat) :=
  match ts_current toks i with
  | .error e => .error e
  | .ok t => if t.type ≠ k then .error (.syntaxError i) else .ok (t, i + 1)

/-- `_TokenStream.expect_one_of`. -/
def ts_expect_one_of (toks : List PTok) (i : Nat) (ks : List TK) :
    Except PErr (PTok × Nat) :=
  match ts_current toks i with
  | .error e => .error e
  | .ok t => if t.type ∉ ks then .error (.syntaxError i) else .ok (t, i + 1)

/-- `Node.location` attribute access (as used by the parser to propagate
positions; `ExprAsStatement` keeps the default `None`). -/
def nodeLocation : Node → Option Nat
  | .Integer loc _ | .Float loc _ | .Boolean loc _ | .Character loc _
  | .Name loc _ => loc
  | .BinOp loc _ _ _ | .UnaryOp loc _ _ | .LogicalOp loc _ _ _ => loc
  | .ParenExpr loc _ | .Assignment loc _ _ | .PrintStatement loc _ => loc
  | .VarDecl loc _ _ _ | .ConstDecl loc _ _ _ => loc
  | .ExprAsStatement _ => none
  | .IfElse loc _ _ _ | .While loc _ _ | .Break loc | .Continue loc => loc
  | .Statements loc _ => loc
  | .FuncArg loc _ _ | .FuncDef loc _ _ _ _ | .Return loc _ | .FuncCall loc _ _ => loc

/-- The comparison token kinds of `_parse_logical_cmp_or_expr`. -/
def cmp_tokens : List TK :=
  [.LESS, .MORE, .LESS_EQ, .MORE_EQ, .DOUBLE_EQ, .NOT_EQ]

/-- `_parse_name`. -/
def parse_name (toks : List PTok) (i : Nat) : Except PErr (Node × Nat) :=
  match ts_expect toks i .NAME with
  | .error e => .error e
  | .ok (t, i1) => .ok (.Name (some t.pos) t.value, i1)

/-- `_parse_integer`. -/
def parse_integer (toks : List PTok) (i : Nat) : Except PErr (Node × Nat) :=
  match ts_expect toks i .INTEGER with
  | .error e => .error e
  | .ok (t, i1) => .ok (.Integer (some t.pos) t.value, i1)

/-- `_parse_float`. -/
def parse_float (toks : List PTok) (i : Nat) : Except PErr (Node × Nat) :=
  match ts_expect toks i .FLOAT with
  | .error e => .error e
  | .ok (t, i1) => .ok (.Float (some t.pos) t.value, i1)

/-- `_parse_true`. -/
def parse_true (toks : List PTok) (i : Nat) : Except PErr (Node × Nat) :=
  match ts_expect toks i .TRUE with
  | .error e => .error e
  | .ok (t, i1) => .ok (.Boolean (some t.pos) true, i1)

/-- `_parse_false`. -/
def parse_false (toks : List PTok) (i : Nat) : Except PErr (Node × Nat) :=
  match ts_expect toks i .FALSE with
  | .error e => .error e
  | .ok (t, i1) => .ok (.Boolean (some t.pos) false, i1)

/-- `_parse_character`: strips the quotes (`t.value[1:-1]`) and decodes the
escape `\n`. -/
def parse_character (toks : List PTok) (i : Nat) : Except PErr (Node × Nat) :=
  match ts_expect toks i .CHAR with
  | .error e => .error e
  | .ok (t, i1) =>
    let inner := String.mk ((t.value.data.drop 1).dropLast)
    let v := if inner = String.mk ['\\', 'n'] then "\n" else inner
    .ok (.Character (some t.pos) v, i1)

/-- `_parse_type`. -/
def parse_type (toks : List PTok) (i : Nat) : Except PErr (WType × Nat) :=
  match ts_expect toks i .NAME with
  | .error e => .error e
  | .ok (t, i1) => .ok (⟨some t.pos, t.value⟩, i1)

/-- `_parse_break_statement`. -/
def parse_break_statement (toks : List PTok) (i : Nat) : Except PErr (Node × Nat) :=
  match ts_expect toks i .BREAK with
  | .error e => .error e
  | .ok (t, i1) =>
    match ts_expect toks i1 .SEMICOLON with
    | .error e => .error e
    | .ok (_, i2) => .ok (.Break (some t.pos), i2)

/-- `_parse_continue_statement`. -/
def parse_continue_statement (toks : List PTok) (i : Nat) : Except PErr (Node × Nat) :=
  match ts_expect toks i .CONTINUE with
  | .error e => .error e
  | .ok (t, i1) =>
    match ts_expect toks i1 .SEMICOLON with
    | .error e => .error e
    | .ok (_, i2) => .ok (.Continue (some t.pos), i2)

/-- `_parse_func_arg`. -/
def parse_func_arg (toks : List PTok) (i : Nat) : Except PErr (Node × Nat) :=
  match parse_name toks i with
  | .error e => .error e
  | .ok (nm, i1) =>
    match parse_type toks i1 with
    | .error e => .error e
    | .ok (ty, i2) => .ok (.FuncArg (nodeLocation nm) nm ty, i2)

/-- The mutually recursive parsing functions of `_parser.py`, as one record:
recursion is tied by `parsers` below through a plain `Nat.rec` on fuel, so
that every definition reduces cheaply in the kernel.  Each field is the
like-named `_parse_*` function; the `*_loop` fields are the `while` loops of
the corresponding functions. -/
structure Pack where
  program : List PTok → Nat → Except PErr (List Node × Nat)
  statement : List PTok → Nat → Except PErr (Node × Nat)
  print_statement : List PTok → Nat → Except PErr (Node × Nat)
  const_statement : List PTok → Nat → Except PErr (Node × Nat)
  var_statement : List PTok → Nat → Except PErr (Node × Nat)
  if_statement : List PTok → Nat → Except PErr (Node × Nat)
  else_statement : List PTok → Nat → Except PErr (Node × Nat)
  while_statement : List PTok → Nat → Except PErr (Node × Nat)
  return_statement : List PTok → Nat → Except PErr (Node × Nat)
  statements_block : List PTok → Nat → Except PErr (Node × Nat)
  block_loop : List PTok → Nat → Except PErr (List Node × Nat)
  expression_as_statement : List PTok → Nat → Except PErr (Node × Nat)
  expression : List PTok → Nat → Except PErr (Node × Nat)
  assignment_or_expr : List PTok → Nat → Except PErr (Node × Nat)
  or_or_expr : List PTok → Nat → Except PErr (Node × Nat)
  or_loop : List PTok → Node → Nat → Except PErr (Node × Nat)
  and_or_expr : List PTok → Nat → Except PErr (Node × Nat)
  and_loop : List PTok → Node → Nat → Except PErr (Node × Nat)
  logical_cmp_or_expr : List PTok → Nat → Except PErr (Node × Nat)
  cmp_loop : List PTok → Node → Nat → Except PErr (Node × Nat)
  addsub_or_expr : List PTok → Nat → Except PErr (Node × Nat)
  addsub_loop : List PTok → Node → Nat → Except PErr (Node × Nat)
  muldiv_or_expr : List PTok → Nat → Except PErr (Node × Nat)
  muldiv_loop : List PTok → Node → Nat → Except PErr (Node × Nat)
  factor : List PTok → Nat → Except PErr (Node × Nat)
  func_def : List PTok → Nat → Except PErr (Node × Nat)
  func_def_args_loop : List PTok → Nat → Except PErr (List Node × Nat)
  func_call : List PTok → Nat → Except PErr (Node × Nat)
  func_call_args_loop : List PTok → Nat → Except PErr (List Node × Nat)
  unaryop : List PTok → Nat → Except PErr (Node × Nat)

/-- The fuel-exhausted record (never reached with adequate fuel). -/
def errPack : Pack where
  program := fun _ _ => .error .fuel
  statement := fun _ _ => .error .fuel
  print_statement := fun _ _ => .error .fuel
  const_statement := fun _ _ => .error .fuel
  var_statement := fun _ _ => .error .fuel
  if_statement := fun _ _ => .error .fuel
  else_statement := fun _ _ => .error .fuel
  while_statement := fun _ _ => .error .fuel
  return_statement := fun _ _ => .error .fuel
  statements_block := fun _ _ => .error .fuel
  block_loop := fun _ _ => .error .fuel
  expression_as_statement := fun _ _ => .error .fuel
  expression := fun _ _ => .error .fuel
  assignment_or_expr := fun _ _ => .error .fuel
  or_or_expr := fun _ _ => .error .fuel
  or_loop := fun _ _ _ => .error .fuel
  and_or_expr := fun _ _ => .error .fuel
  and_loop := fun _ _ _ => .error .fuel
  logical_cmp_or_expr := fun _ _ => .error .fuel
  cmp_loop := fun _ _ _ => .error .fuel
  addsub_or_expr := fun _ _ => .error .fuel
  addsub_loop := fun _ _ _ => .error .fuel
  muldiv_or_expr := fun _ _ => .error .fuel
  muldiv_loop := fun _ _ _ => .error .fuel
  factor := fun _ _ => .error .fuel
  func_def := fun _ _ => .error .fuel
  func_def_args_loop := fun _ _ => .error .fuel
  func_call := fun _ _ => .error .fuel
  func_call_args_loop := fun _ _ => .error .fuel
  unaryop := fun _ _ => .error .fuel

/-- One recursion layer of the parser: each field is the direct transcription
of the like-named `_parse_*` function, with recursive calls going through
`prev`. -/
def mkPack (prev : Pack) : Pack where
  -- `_parse_program`: parse statements until end of the token stream
  -- (`if stmt:` is always true, every statement node is appended).
  program := fun toks i =>
    if ts_eof toks i then .ok ([], i)
    else
      match prev.statement toks i with
      | .error e => .error e
      | .ok (stmt, i') =>
        match prev.program toks i' with
        | .error e => .error e
        | .ok (rest, i'') => .ok (stmt :: rest, i'')
  -- `_parse_statement`: dispatch on the current token kind.
  statement := fun toks i =>
    if (ts_peek toks i .BREAK).isSome then parse_break_statement toks i
    else if (ts_peek toks i .CONTINUE).isSome then parse_continue_statement toks i
    else if (ts_peek toks i .PRINT).isSome then prev.print_statement toks i
    else if (ts_peek toks i .CONST).isSome then prev.const_statement toks i
    else if (ts_peek toks i .VAR).isSome then prev.var_statement toks i
    else if (ts_peek toks i .IF).isSome then prev.if_statement toks i
    else if (ts_peek toks i .WHILE).isSome then prev.while_statement toks i
    else if (ts_peek toks i .FUNC).isSome then prev.func_def toks i
    else if (ts_peek toks i .RETURN).isSome then prev.return_statement toks i
    else prev.expression_as_statement toks i
  -- `_parse_print_statement`.
  print_statement := fun toks i =>
    match ts_expect toks i .PRINT with
    | .error e => .error e
    | .ok (t, i1) =>
      match prev.expression toks i1 with
      | .error e => .error e
      | .ok (expr, i2) =>
        match ts_expect toks i2 .SEMICOLON with
        | .error e => .error e
        | .ok (_, i3) => .ok (.PrintStatement (some t.pos) expr, i3)
  -- `_parse_const_statement`.
  const_statement := fun toks i =>
    match ts_expect toks i .CONST with
    | .error e => .error e
    | .ok (t1, i1) =>
      match parse_name toks i1 with
      | .error e => .error e
      | .ok (nameNode, i2) =>
        match
          (if (ts_peek toks i2 .NAME).isSome then
            match parse_type toks i2 with
            | .error e => .error e
            | .ok (ty, i3) => .ok (some ty, i3)
          else .ok (none, i2) : Except PErr (Option WType × Nat)) with
        | .error e => .error e
        | .ok (typeNode, i3) =>
          match ts_expect toks i3 .EQUAL with
          | .error e => .error e
          | .ok (_, i4) =>
            match prev.expression toks i4 with
            | .error e => .error e
            | .ok (val, i5) =>
              match ts_expect toks i5 .SEMICOLON with
              | .error e => .error e
              | .ok (_, i6) =>
                .ok (.ConstDecl (some t1.pos) nameNode val typeNode, i6)
  -- `_parse_var_statement`.
  var_statement := fun toks i =>
    match ts_expect toks i .VAR with
    | .error e => .error e
    | .ok (t1, i1) =>
      match parse_name toks i1 with
      | .error e => .error e
      | .ok (nameNode, i2) =>
        match
          (if (ts_peek toks i2 .NAME).isSome then
            match parse_type toks i2 with
            | .error e => .error e
            | .ok (ty, i3) => .ok (some ty, i3)
          else .ok (none, i2) : Except PErr (Option WType × Nat)) with
        | .error e => .error e
        | .ok (typeNode, i3) =>
          match
            (if (ts_peek toks i3 .EQUAL).isSome then
              match ts_expect toks i3 .EQUAL with
              | .error e => .error e
              | .ok (_, i4) =>
                match prev.expression toks i4 with
                | .error e => .error e
                | .ok (v, i5) => .ok (some v, i5)
            else .ok (none, i3) : Except PErr (Option Node × Nat)) with
          | .error e => .error e
          | .ok (val, i5) =>
            match ts_expect toks i5 .SEMICOLON with
            | .error e => .error e
            | .ok (_, i6) =>
              .ok (.VarDecl (some t1.pos) nameNode typeNode val, i6)
  -- `_parse_if_statement`.
  if_statement := fun toks i =>
    match ts_expect toks i .IF with
    | .error e => .error e
    | .ok (t1, i1) =>
      match prev.expression toks i1 with
      | .error e => .error e
      | .ok (test, i2) =>
        match prev.statements_block toks i2 with
        | .error e => .error e
        | .ok (body, i3) =>
          match
            (if (ts_peek toks i3 .ELSE).isSome then
              match prev.else_statement toks i3 with
              | .error e => .error e
              | .ok (eb, i4) => .ok (some eb, i4)
            else .ok (none, i3) : Except PErr (Option Node × Nat)) with
          | .error e => .error e
          | .ok (elseBody, i4) =>
            .ok (.IfElse (some t1.pos) test body elseBody, i4)
  -- `_parse_else_statement`.
  else_statement := fun toks i =>
    match ts_expect toks i .ELSE with
    | .error e => .error e
    | .ok (_, i1) => prev.statements_block toks i1
  -- `_parse_while_statement`.
  while_statement := fun toks i =>
    match ts_expect toks i .WHILE with
    | .error e => .error e
    | .ok (t1, i1) =>
      match prev.expression toks i1 with
      | .error e => .error e
      | .ok (test, i2) =>
        match prev.statements_block toks i2 with
        | .error e => .error e
        | .ok (body, i3) => .ok (.While (some t1.pos) test body, i3)
  -- `_parse_return_statement`.
  return_statement := fun toks i =>
    match ts_expect toks i .RETURN with
    | .error e => .error e
    | .ok (t1, i1) =>
      match prev.expression toks i1 with
      | .error e => .error e
      | .ok (v, i2) =>
        match ts_expect toks i2 .SEMICOLON with
        | .error e => .error e
        | .ok (_, i3) => .ok (.Return (some t1.pos) v, i3)
  -- `_parse_statements_block`: `{ statement* }`.
  statements_block := fun toks i =>
    match ts_expect toks i .OPEN_CURLY_BRACE with
    | .error e => .error e
    | .ok (_, i1) =>
      match prev.block_loop toks i1 with
      | .error e => .error e
      | .ok (body, i2) =>
        match ts_expect toks i2 .CLOSE_CURLY_BRACE with
        | .error e => .error e
        | .ok (_, i3) => .ok (.Statements none body, i3)
  -- the `while not tokens.peek("CLOSE_CURLY_BRACE")` loop of the above.
  block_loop := fun toks i =>
    if (ts_peek toks i .CLOSE_CURLY_BRACE).isSome then .ok ([], i)
    else
      match prev.statement toks i with
      | .error e => .error e
      | .ok (stmt, i') =>
        match prev.block_loop toks i' with
        | .error e => .error e
        | .ok (rest, i'') => .ok (stmt :: rest, i'')
  -- `_parse_expression_as_statement`.
  expression_as_statement := fun toks i =>
    match prev.expression toks i with
    | .error e => .error e
    | .ok (expr, i1) =>
      match ts_expect toks i1 .SEMICOLON with
      | .error e => .error e
      | .ok (_, i2) => .ok (.ExprAsStatement expr, i2)
  -- `_parse_expression`.
  expression := fun toks i => prev.assignment_or_expr toks i
  -- `_parse_assignment_or_expr`.
  assignment_or_expr := fun toks i =>
    match prev.or_or_expr toks i with
    | .error e => .error e
    | .ok (left, i1) =>
      if (ts_peek toks i1 .EQUAL).isSome then
        match ts_expect toks i1 .EQUAL with
        | .error e => .error e
        | .ok (_, i2) =>
          match prev.or_or_expr toks i2 with
          | .error e => .error e
          | .ok (right, i3) =>
            .ok (.Assignment (nodeLocation left) left right, i3)
      else .ok (left, i1)
  -- `_parse_or_or_expr` and its `while` loop.
  or_or_expr := fun toks i =>
    match prev.and_or_expr toks i with
    | .error e => .error e
    | .ok (left, i1) => prev.or_loop toks left i1
  or_loop := fun toks left i =>
    match ts_peek_one_of toks i [.LOGICAL_OR] with
    | none => .ok (left, i)
    | some tokOp =>
      match ts_expect_one_of toks i [.LOGICAL_OR] with
      | .error e => .error e
      | .ok (_, i1) =>
        match prev.and_or_expr toks i1 with
        | .error e => .error e
        | .ok (right, i2) =>
          prev.or_loop toks
            (.LogicalOp (nodeLocation left) tokOp.value left right) i2
  -- `_parse_and_or_expr` and its `while` loop.
  and_or_expr := fun toks i =>
    match prev.logical_cmp_or_expr toks i with
    | .error e => .error e
    | .ok (left, i1) => prev.and_loop toks left i1
  and_loop := fun toks left i =>
    match ts_peek_one_of toks i [.LOGICAL_AND] with
    | none => .ok (left, i)
    | some tokOp =>
      match ts_expect_one_of toks i [.LOGICAL_AND] with
      | .error e => .error e
      | .ok (_, i1) =>
        match prev.logical_cmp_or_expr toks i1 with
        | .error e => .error e
        | .ok (right, i2) =>
          prev.and_loop toks
            (.LogicalOp (nodeLocation left) tokOp.value left right) i2
  -- `_parse_logical_cmp_or_expr` and its `while` loop.
  logical_cmp_or_expr := fun toks i =>
    match prev.addsub_or_expr toks i with
    | .error e => .error e
    | .ok (left, i1) => prev.cmp_loop toks left i1
  cmp_loop := fun toks left i =>
    match ts_peek_one_of toks i cmp_tokens with
    | none => .ok (left, i)
    | some tokOp =>
      match ts_expect_one_of toks i cmp_tokens with
      | .error e => .error e
      | .ok (_, i1) =>
        match prev.addsub_or_expr toks i1 with
        | .error e => .error e
        | .ok (right, i2) =>
          prev.cmp_loop toks
            (.LogicalOp (nodeLocation left) tokOp.value left right) i2
  -- `_parse_addsub_or_expr` and its `while` loop.
  addsub_or_expr := fun toks i =>
    match prev.muldiv_or_expr toks i with
    | .error e => .error e
    | .ok (left, i1) => prev.addsub_loop toks left i1
  addsub_loop := fun toks left i =>
    match ts_peek_one_of toks i [.ADD, .SUB] with
    | none => .ok (left, i)
    | some tokOp =>
      match ts_expect_one_of toks i [.ADD, .SUB] with
      | .error e => .error e
      | .ok (_, i1) =>
        match prev.muldiv_or_expr toks i1 with
        | .error e => .error e
        | .ok (right, i2) =>
          prev.addsub_loop toks
            (.BinOp (nodeLocation left) tokOp.value left right) i2
  -- `_parse_muldiv_or_expr` and its `while` loop.
  muldiv_or_expr := fun toks i =>
    match prev.factor toks i with
    | .error e => .error e
    | .ok (left, i1) => prev.muldiv_loop toks left i1
  muldiv_loop := fun toks left i =>
    match ts_peek_one_of toks i [.MULTIPLY, .DIVIDE] with
    | none => .ok (left, i)
    | some tokOp =>
      match ts_expect_one_of toks i [.MULTIPLY, .DIVIDE] with
      | .error e => .error e
      | .ok (_, i1) =>
        match prev.factor toks i1 with
        | .error e => .error e
        | .ok (right, i2) =>
          prev.muldiv_loop toks
            (.BinOp (nodeLocation left) tokOp.value left right) i2
  -- `_parse_factor`.  Note the parenthesis branch returns the inner
  -- expression directly: no `ParenExpr` node is ever produced.  In the
  -- final `else` branch the source calls `tokens.current()` while building
  -- the error, so at end of stream it raises `IndexError`.
  factor := fun toks i =>
    if (ts_peek toks i .INTEGER).isSome then parse_integer toks i
    else if (ts_peek toks i .FLOAT).isSome then parse_float toks i
    else if (ts_peek toks i .TRUE).isSome then parse_true toks i
    else if (ts_peek toks i .FALSE).isSome then parse_false toks i
    else if (ts_peek toks i .CHAR).isSome then parse_character toks i
    else if (ts_peek_all toks i [.NAME, .OPEN_PARENS]).isSome then
      prev.func_call toks i
    else if (ts_peek toks i .NAME).isSome then parse_name toks i
    else if (ts_peek_one_of toks i [.SUB, .ADD, .LOGICAL_NOT]).isSome then
      prev.unaryop toks i
    else if (ts_peek toks i .OPEN_PARENS).isSome then
      match ts_expect toks i .OPEN_PARENS with
      | .error e => .error e
      | .ok (_, i1) =>
        match prev.expression toks i1 with
        | .error e => .error e
        | .ok (factor, i2) =>
          match ts_expect toks i2 .CLOSE_PARENS with
          | .error e => .error e
          | .ok (_, i3) => .ok (factor, i3)
    else
      match ts_current toks i with
      | .error e => .error e
      | .ok _ => .error (.syntaxError i)
  -- `_parse_func_def` and its argument loop.
  func_def := fun toks i =>
    match ts_expect toks i .FUNC with
    | .error e => .error e
    | .ok (t1, i1) =>
      match parse_name toks i1 with
      | .error e => .error e
      | .ok (funcName, i2) =>
        match ts_expect toks i2 .OPEN_PARENS with
        | .error e => .error e
        | .ok (_, i3) =>
          match prev.func_def_args_loop toks i3 with
          | .error e => .error e
          | .ok (args, i4) =>
            match ts_expect toks i4 .CLOSE_PARENS with
            | .error e => .error e
            | .ok (_, i5) =>
              match parse_type toks i5 with
              | .error e => .error e
              | .ok (retType, i6) =>
                match prev.statements_block toks i6 with
                | .error e => .error e
                | .ok (body, i7) =>
                  .ok (.FuncDef (some t1.pos) funcName args retType body, i7)
  func_def_args_loop := fun toks i =>
    if (ts_peek toks i .CLOSE_PARENS).isSome then .ok ([], i)
    else
      match parse_func_arg toks i with
      | .error e => .error e
      | .ok (arg, i1) =>
        match
          (if (ts_peek toks i1 .COMMA).isSome then
            match ts_expect toks i1 .COMMA with
            | .error e => .error e
            | .ok (_, i2) => .ok i2
          else .ok i1 : Except PErr Nat) with
        | .error e => .error e
        | .ok i2 =>
          match prev.func_def_args_loop toks i2 with
          | .error e => .error e
          | .ok (rest, i3) => .ok (arg :: rest, i3)
  -- `_parse_func_call` and its argument loop.
  func_call := fun toks i =>
    match parse_name toks i with
    | .error e => .error e
    | .ok (funcName, i1) =>
      match ts_expect toks i1 .OPEN_PARENS with
      | .error e => .error e
      | .ok (_, i2) =>
        match prev.func_call_args_loop toks i2 with
        | .error e => .error e
        | .ok (args, i3) =>
          match ts_expect toks i3 .CLOSE_PARENS with
          | .error e => .error e
          | .ok (_, i4) =>
            .ok (.FuncCall (nodeLocation funcName) funcName args, i4)
  func_call_args_loop := fun toks i =>
    if (ts_peek toks i .CLOSE_PARENS).isSome then .ok ([], i)
    else
      match prev.expression toks i with
      | .error e => .error e
      | .ok (arg, i1) =>
        match
          (if (ts_peek toks i1 .COMMA).isSome then
            match ts_expect toks i1 .COMMA with
            | .error e => .error e
            | .ok (_, i2) => .ok i2
          else .ok i1 : Except PErr Nat) with
        | .error e => .error e
        | .ok i2 =>
          match prev.func_call_args_loop toks i2 with
          | .error e => .error e
          | .ok (rest, i3) => .ok (arg :: rest, i3)
  -- `_parse_unaryop`.
  unaryop := fun toks i =>
    match ts_expect_one_of toks i [.SUB, .ADD, .LOGICAL_NOT] with
    | .error e => .error e
    | .ok (t1, i1) =>
      match prev.factor toks i1 with
      | .error e => .error e
      | .ok (v, i2) =>
        let op := match t1.type with
          | .SUB => "-"
          | .ADD => "+"
          | _ => "!"
        .ok (.UnaryOp (some t1.pos) op v, i2)

/-- The fuel-indexed parser record: `fuel` bounds only the recursion depth
of the embedding (the Python source recurses without bound). -/
def parsers (fuel : Nat) : Pack :=
  Nat.rec errPack (fun _ prev => mkPack prev) fuel

/-- `_parse_program` (with fuel). -/
def parse_program (fuel : Nat) (toks : List PTok) (i : Nat) :
    Except PErr (List Node × Nat) :=
  (parsers fuel).program toks i

/-- `_parse_expression` (with fuel). -/
def parse_expression (fuel : Nat) (toks : List PTok) (i : Nat) :
    Except PErr (Node × Nat) :=
  (parsers fuel).expression toks i

/-- `parse_source`: tokenize (via the spec-modelled lexer) and parse a whole
program into a `Statements` root.  The fuel is proportional to the token
count; it only bounds the recursion depth of the embedding. -/
def parse_source (s : String) : Except PErr Node :=
  match WSpecLex.specTokenize s with
  | .error e => .error e
  | .ok toks =>
    match parse_program (20 * (toks.length + 1)) toks 0 with
    | .error e => .error e
    | .ok (ns, _) => .ok (.Statements none ns)

end WParser


namespace WFormat

open WAst

/-- `_INDENT_SPACES = 4`. -/
def INDENT_SPACES : Nat := 4

/-- `_indent(text, indent_level)`: prefix with `indent_level * 4` spaces. -/
def indentF (text : String) (indentLevel : Nat) : String :=
  String.mk (List.replicate (indentLevel * INDENT_SPACES) ' ') ++ text

/-- `node.name.value` attribute access (the formatter reads it directly on
`VarDecl`/`ConstDecl`/`FuncDef`/`FuncArg`/`FuncCall`, whose `name` is always
a `Name` node). -/
def nameValueOf : Node → String
  | .Name _ v => v
  | _ => ""

/-- The `_FormatVisitor` of `_format.py`: one case per `visit_*` method.
The first argument is fuel (the Python visitor recurses structurally without
bound; fuel at least the node depth is enough), the second the current
`_indent_level`. -/
def format_visit : Nat → Nat → Node → String
  | 0, _, _ => ""
  | fuel + 1, level, n =>
    match n with
    | .Integer _ v => v
    | .Float _ v => v
    | .Boolean _ b => if b then "true" else "false"
    | .Character _ v => "\x27" ++ v ++ "\x27"
    | .Name _ v => v
    | .PrintStatement _ e => "print " ++ format_visit fuel level e ++ ";"
    | .Break _ => "break;"
    | .Continue _ => "continue;"
    | .BinOp _ op l r =>
        format_visit fuel level l ++ " " ++ op ++ " " ++ format_visit fuel level r
    | .UnaryOp _ op a => op ++ format_visit fuel level a
    | .LogicalOp _ op l r =>
        format_visit fuel level l ++ " " ++ op ++ " " ++ format_visit fuel level r
    | .ParenExpr _ v => "(" ++ format_visit fuel level v ++ ")"
    | .Assignment _ l r =>
        format_visit fuel level l ++ " = " ++ format_visit fuel level r
    | .VarDecl _ nm t v =>
        let typeSuffix := match t with
          | some ty => " " ++ ty.name
          | none => ""
        let maybeValue := match v with
          | some e => " = " ++ format_visit fuel level e
          | none => ""
        "var " ++ nameValueOf nm ++ typeSuffix ++ maybeValue ++ ";"
    | .ConstDecl _ nm v t =>
        let typeSuffix := match t with
          | some ty => " " ++ ty.name
          | none => ""
        "const " ++ nameValueOf nm ++ typeSuffix ++ " = "
          ++ format_visit fuel level v ++ ";"
    | .Statements _ ns =>
        String.intercalate "\n"
          (ns.map (fun s => indentF (format_visit fuel level s) level))
    | .ExprAsStatement e => format_visit fuel level e ++ ";"
    | .IfElse _ test body elseBody =>
        let lines1 := ["if " ++ format_visit fuel level test ++ " \x7b",
                       format_visit fuel (level + 1) body]
        let lines2 := match elseBody with
          | some eb => [indentF "\x7d else \x7b" level,
                        format_visit fuel (level + 1) eb]
          | none => []
        String.intercalate "\n" (lines1 ++ lines2 ++ [indentF "\x7d" level])
    | .While _ test body =>
        String.intercalate "\n"
          ["while " ++ format_visit fuel level test ++ " \x7b",
           format_visit fuel (level + 1) body, "\x7d"]
    | .FuncDef _ nm args retType body =>
        let formattedArgs := String.intercalate ", " (args.map (format_visit fuel level))
        String.intercalate "\n"
          ["func " ++ nameValueOf nm ++ "(" ++ formattedArgs ++ ") "
             ++ retType.name ++ " \x7b",
           format_visit fuel (level + 1) body, "\x7d"]
    | .FuncArg _ nm t => nameValueOf nm ++ " " ++ t.name
    | .Return _ v => "return " ++ format_visit fuel level v ++ ";"
    | .FuncCall _ nm args =>
        nameValueOf nm ++ "("
          ++ String.intercalate ", " (args.map (format_visit fuel level)) ++ ")"

/-- `format(node)` of `_format.py` (fresh visitor, indent level 0).  The
Python visitor recurses structurally without bound; the embedding's `fuel`
argument only bounds that depth, and any value at least the node depth
yields the source's output. -/
def format (fuel : Nat) (n : Node) : String :=
  format_visit fuel 0 n

end WFormat

namespace WInterp

open WAst WRound

/-- Errors of `_interpret.py`: `runtimeError` models `WabbitRuntimeError`
(including `_UnsupportedOperation`), `typeError` models `WabbitTypeError`,
`notImplemented` the base `Visitor` stubs raising `RuntimeError("Not
implemented")`, and the remaining constructors uncaught host exceptions.
`fuel` is the embedding's fuel-exhaustion marker. -/
inductive IErr where
  | runtimeError (msg : String)
  | typeError (msg : String)
  | notImplemented (meth : String)
  | zeroDivisionError
  | indexError
  | keyError
  | attributeError
  | valueError
  | assertionError
  | fuel
deriving DecidableEq, Repr

/-- A Python host value held inside a `_DataType` wrapper.  Floats are the
exact rational value of the binary64 double. -/
inductive PyVal where
  | int (i : ℤ)
  | float (q : ℚ)
  | bool (b : Bool)
  | str (s : String)
deriving DecidableEq, Repr

/-- The wrapper classes `_IntegerVar | _FloatVar | _BooleanVar | _CharVar`. -/
inductive VarCls where
  | integer
  | floatV
  | boolean
  | char
deriving DecidableEq, Repr

/-- The `type_` class attribute (`int | float | bool | str`). -/
inductive PyTy where
  | int
  | float
  | bool
  | str
deriving DecidableEq, Repr

/-- `_DataType` runtime value: wrapper class plus host value.  (The host
value's type can drift from the class tag, e.g. `_BooleanVar` arithmetic
produces a wrapper holding an `int`; the model keeps both.) -/
structure DVal where
  cls : VarCls
  value : PyVal
deriving DecidableEq, Repr

/-- The `type_` attribute of each wrapper class. -/
def clsType : VarCls → PyTy
  | .integer => .int
  | .floatV => .float
  | .boolean => .bool
  | .char => .str

/-- Digits of a natural number (fuel-indexed; `fuel = n` is always enough
since the recursion divides by ten). -/
def natDigitsF : Nat → Nat → List Char
  | 0, _ => []
  | fuel + 1, n =>
    if n < 10 then [Char.ofNat (48 + n)]
    else natDigitsF fuel (n / 10) ++ [Char.ofNat (48 + n % 10)]

/-- Python `str(int)`: decimal form with a leading minus for negatives. -/
def pyIntStr (i : ℤ) : String :=
  if i < 0 then "-" ++ String.mk (natDigitsF i.natAbs i.natAbs)
  else String.mk (natDigitsF i.natAbs i.natAbs)

/-- Python `str(value)` as written by `print(res.value, end="")`.  Booleans
render as the capitalised words `True`/`False`, integers in decimal,
strings (Wabbit characters) as themselves.  For floats, whose host `repr`
(the shortest decimal that rounds back to the double) the model does not
reproduce, the exact rational is rendered; no claim rests on float output. -/
def pyStrOf : PyVal → String
  | .int i => pyIntStr i
  | .bool b => if b then "True" else "False"
  | .str s => s
  | .float q => "float:" ++ pyIntStr q.num ++ "/" ++ pyIntStr (q.den : ℤ)

/-- Python truthiness of a host value. -/
def pyTruthy : PyVal → Bool
  | .int i => i ≠ 0
  | .float q => q ≠ 0
  | .bool b => b
  | .str s => s ≠ ""

/-- The exact numeric value of an `int` or `bool` host value. -/
def numAsInt : PyVal → Option ℤ
  | .int i => some i
  | .bool b => some (if b then 1 else 0)
  | _ => none

/-- The binary64 value a numeric host value converts to in a float
operation (`int` operands are converted to double first, which rounds). -/
def numAsDouble : PyVal → Option ℚ
  | .int i =>
    some (if i = 0 then 0
          else if 0 < i then roundPosRatToDouble i.toNat 1
          else -roundPosRatToDouble (-i).toNat 1)
  | .bool b => some (if b then 1 else 0)
  | .float q => some q
  | _ => none

/-- Python `+` on host values as reachable through `_DataType.add`:
`int`/`bool` add exactly, any float operand makes an IEEE double addition
(round the exact sum), strings concatenate, and a string with a number is a
`TypeError`. -/
def pyAdd (a b : PyVal) : Except IErr PyVal :=
  match a, b with
  | .str x, .str y => .ok (.str (x ++ y))
  | .str _, _ => .error (.typeError "str + non-str")
  | _, .str _ => .error (.typeError "non-str + str")
  | .float _, _ | _, .float _ =>
    match numAsDouble a, numAsDouble b with
    | some x, some y => .ok (.float (roundRatToDouble (x + y)))
    | _, _ => .error (.typeError "+")
  | _, _ =>
    match numAsInt a, numAsInt b with
    | some x, some y => .ok (.int (x + y))
    | _, _ => .error (.typeError "+")

/-- Python `-` on host values (same numeric promotion as `pyAdd`; strings
do not subtract). -/
def pySub (a b : PyVal) : Except IErr PyVal :=
  match a, b with
  | .str _, _ | _, .str _ => .error (.typeError "-")
  | .float _, _ | _, .float _ =>
    match numAsDouble a, numAsDouble b with
    | some x, some y => .ok (.float (roundRatToDouble (x - y)))
    | _, _ => .error (.typeError "-")
  | _, _ =>
    match numAsInt a, numAsInt b with
    | some x, some y => .ok (.int (x - y))
    | _, _ => .error (.typeError "-")

/-- Python `*` on host values (numeric only here; string repetition is not
reachable through `_DataType.mul` because both operands share a class). -/
def pyMul (a b : PyVal) : Except IErr PyVal :=
  match a, b with
  | .str _, _ | _, .str _ => .error (.typeError "*")
  | .float _, _ | _, .float _ =>
    match numAsDouble a, numAsDouble b with
    | some x, some y => .ok (.float (roundRatToDouble (x * y)))
    | _, _ => .error (.typeError "*")
  | _, _ =>
    match numAsInt a, numAsInt b with
    | some x, some y => .ok (.int (x * y))
    | _, _ => .error (.typeError "*")

/-- Python `/` (true division) on host values: always a float; division by
zero raises `ZeroDivisionError`; `int / int` is the correctly rounded
double of the exact quotient. -/
def pyTrueDiv (a b : PyVal) : Except IErr PyVal :=
  match a, b with
  | .str _, _ | _, .str _ => .error (.typeError "/")
  | _, _ =>
    match numAsDouble a, numAsDouble b with
    | some _, some y =>
      if y = 0 then .error .zeroDivisionError
      else
        match numAsInt a, numAsInt b with
        | some ia, some ib =>
          -- exact int (and bool) operands: correctly rounded a / b
          if ia = 0 then .ok (.float 0)
          else
            let mag := roundPosRatToDouble ia.natAbs ib.natAbs
            .ok (.float (if (0 ≤ ia) = (0 ≤ ib) then mag else -mag))
        | _, _ =>
          match numAsDouble a with
          | some x => .ok (.float (roundRatToDouble (x / y)))
          | none => .error (.typeError "/")
    | _, _ => .error (.typeError "/")

/-- Python `==` on host values (never raises; mismatched kinds compare
unequal, numerics compare exactly). -/
def pyEqB (a b : PyVal) : Bool :=
  match a, b with
  | .str x, .str y => x = y
  | .str _, _ | _, .str _ => false
  | _, _ =>
    match numAsDouble a, numAsDouble b with
    | some x, some y =>
      match numAsInt a, numAsInt b with
      | some ia, some ib => ia = ib
      | some ia, none => (ia : ℚ) = y
      | none, some ib => x = (ib : ℚ)
      | none, none => x = y
    | _, _ => false

/-- Python `<` on host values: numerics compare exactly, strings compare
lexicographically by code point, a string against a number raises
`TypeError`. -/
def pyLtB (a b : PyVal) : Except IErr Bool :=
  match a, b with
  | .str x, .str y => .ok (decide (x < y))
  | .str _, _ | _, .str _ => .error (.typeError "<")
  | _, _ =>
    match numAsInt a, numAsInt b with
    | some ia, some ib => .ok (decide (ia < ib))
    | _, _ =>
      match numAsDouble a, numAsDouble b with
      | some x, some y =>
        match numAsInt a, numAsInt b with
        | some ia, _ => .ok (decide ((ia : ℚ) < y))
        | _, some ib => .ok (decide (x < (ib : ℚ)))
        | _, _ => .ok (decide (x < y))
      | _, _ => .error (.typeError "<")

/-- Python `int(x)` on a host value (used by `_IntegerVar.div`): truncates
floats toward zero, widens bools, parses digit strings. -/
def pyIntOf : PyVal → Except IErr PyVal
  | .int i => .ok (.int i)
  | .bool b => .ok (.int (if b then 1 else 0))
  | .float q => .ok (.int (ratTrunc q))
  | .str s =>
    if s ≠ "" ∧ s.data.all WLexer.pyIsDigit then
      .ok (.int (s.data.foldl (fun acc c => 10 * acc + (c.toNat - 48 : ℤ)) 0))
    else .error .valueError

/-- `_DataType._assert_same_type`: compares the `type_` class attributes and
raises `WabbitTypeError` on mismatch. -/
def assert_same_type (a b : DVal) : Except IErr Unit :=
  if clsType a.cls ≠ clsType b.cls then
    .error (.typeError "Incompatible types")
  else .ok ()

/-- `_DataType.add` (no subclass overrides it): same-type check, host `+`,
wrap in `type(self)`. -/
def dval_add (a b : DVal) : Except IErr DVal :=
  match assert_same_type a b with
  | .error e => .error e
  | .ok _ =>
    match pyAdd a.value b.value with
    | .error e => .error e
    | .ok v => .ok ⟨a.cls, v⟩

/-- `_DataType.sub`. -/
def dval_sub (a b : DVal) : Except IErr DVal :=
  match assert_same_type a b with
  | .error e => .error e
  | .ok _ =>
    match pySub a.value b.value with
    | .error e => .error e
    | .ok v => .ok ⟨a.cls, v⟩

/-- `_DataType.mul`. -/
def dval_mul (a b : DVal) : Except IErr DVal :=
  match assert_same_type a b with
  | .error e => .error e
  | .ok _ =>
    match pyMul a.value b.value with
    | .error e => .error e
    | .ok v => .ok ⟨a.cls, v⟩

/-- Truncation toward zero of the correctly rounded double `a / b`, computed
on integers: `int(a / b)` for Python ints `a` and `b` (nonzero `b`). -/
def intTrueDivTrunc (a b : ℤ) : ℤ :=
  if a = 0 then 0
  else
    let mag : ℕ := truncPosRoundDiv a.natAbs b.natAbs
    if (0 ≤ a) = (0 ≤ b) then (mag : ℤ) else -(mag : ℤ)

/-- `div`: `_IntegerVar` overrides the base method with
`type(self)(int(self.value / other.value))` — `int()` of the float (true)
division; every other class uses the base `_DataType.div`, plain host `/`.
For the integer class with integer payloads the composition is computed by
`intTrueDivTrunc` (same rounding core, no intermediate rational). -/
def dval_div (a b : DVal) : Except IErr DVal :=
  match a.cls with
  | .integer =>
    match assert_same_type a b with
    | .error e => .error e
    | .ok _ =>
      match a.value, b.value with
      | .int x, .int y =>
        if y = 0 then .error .zeroDivisionError
        else .ok ⟨a.cls, .int (intTrueDivTrunc x y)⟩
      | _, _ =>
        match pyTrueDiv a.value b.value with
        | .error e => .error e
        | .ok q =>
          match pyIntOf q with
          | .error e => .error e
          | .ok v => .ok ⟨a.cls, v⟩
  | _ =>
    match assert_same_type a b with
    | .error e => .error e
    | .ok _ =>
      match pyTrueDiv a.value b.value with
      | .error e => .error e
      | .ok v => .ok ⟨a.cls, v⟩

/-- `unary_minus`: overridden by `_IntegerVar` and `_FloatVar` (negate);
the base class raises `_UnsupportedOperation`. -/
def dval_unary_minus (a : DVal) : Except IErr DVal :=
  match a.cls with
  | .integer | .floatV =>
    match a.value with
    | .int i => .ok ⟨a.cls, .int (-i)⟩
    | .float q => .ok ⟨a.cls, .float (-q)⟩
    | .bool b => .ok ⟨a.cls, .int (if b then -1 else 0)⟩
    | .str _ => .error (.typeError "-x on str")
  | _ => .error (.runtimeError "Unsupported operation -x")

/-- `unary_plus`: `_IntegerVar` and `_FloatVar` return `self`; the base
class raises `_UnsupportedOperation`. -/
def dval_unary_plus (a : DVal) : Except IErr DVal :=
  match a.cls with
  | .integer | .floatV => .ok a
  | _ => .error (.runtimeError "Unsupported operation +x")

/-- `logical_not`: only `_BooleanVar` implements it (`not self.value`). -/
def dval_logical_not (a : DVal) : Except IErr DVal :=
  match a.cls with
  | .boolean => .ok ⟨a.cls, .bool (!pyTruthy a.value)⟩
  | _ => .error (.runtimeError "Unsupported operation !")

/-- `logical_and`: only `_BooleanVar` implements it; Python `x and y`
returns `y` when `x` is truthy, else `x`. -/
def dval_logical_and (a b : DVal) : Except IErr DVal :=
  match a.cls with
  | .boolean =>
    match assert_same_type a b with
    | .error e => .error e
    | .ok _ =>
      .ok ⟨a.cls, if pyTruthy a.value then b.value else a.value⟩
  | _ => .error (.runtimeError "Unsupported operation &&")

/-- `logical_or`: only `_BooleanVar` implements it; Python `x or y` returns
`x` when `x` is truthy, else `y`. -/
def dval_logical_or (a b : DVal) : Except IErr DVal :=
  match a.cls with
  | .boolean =>
    match assert_same_type a b with
    | .error e => .error e
    | .ok _ =>
      .ok ⟨a.cls, if pyTruthy a.value then a.value else b.value⟩
  | _ => .error (.runtimeError "Unsupported operation ||")

/-- `cmp_eq` (base class, no overrides): `_BooleanVar(self.value == other)`. -/
def dval_cmp_eq (a b : DVal) : Except IErr DVal :=
  match assert_same_type a b with
  | .error e => .error e
  | .ok _ => .ok ⟨.boolean, .bool (pyEqB a.value b.value)⟩

/-- `cmp_not_eq`. -/
def dval_cmp_not_eq (a b : DVal) : Except IErr DVal :=
  match assert_same_type a b with
  | .error e => .error e
  | .ok _ => .ok ⟨.boolean, .bool (!pyEqB a.value b.value)⟩

/-- `cmp_less`. -/
def dval_cmp_less (a b : DVal) : Except IErr DVal :=
  match assert_same_type a b with
  | .error e => .error e
  | .ok _ =>
    match pyLtB a.value b.value with
    | .error e => .error e
    | .ok r => .ok ⟨.boolean, .bool r⟩

/-- `cmp_less_eq` (`x <= y` is `not (y < x)` for these value kinds). -/
def dval_cmp_less_eq (a b : DVal) : Except IErr DVal :=
  match assert_same_type a b with
  | .error e => .error e
  | .ok _ =>
    match pyLtB b.value a.value with
    | .error e => .error e
    | .ok r => .ok ⟨.boolean, .bool (!r)⟩

/-- `cmp_more`. -/
def dval_cmp_more (a b : DVal) : Except IErr DVal :=
  match assert_same_type a b with
  | .error e => .error e
  | .ok _ =>
    match pyLtB b.value a.value with
    | .error e => .error e
    | .ok r => .ok ⟨.boolean, .bool r⟩

/-- `cmp_more_eq`. -/
def dval_cmp_more_eq (a b : DVal) : Except IErr DVal :=
  match assert_same_type a b with
  | .error e => .error e
  | .ok _ =>
    match pyLtB a.value b.value with
    | .error e => .error e
    | .ok r => .ok ⟨.boolean, .bool (!r)⟩

end WInterp

namespace WInterp

open WAst WRound

/-- Python `dict` lookup on an association list (first match). -/
def dictGet {α : Type} (m : List (String × α)) (k : String) : Option α :=
  match m with
  | [] => none
  | (k', v) :: rest => if k' = k then some v else dictGet rest k

/-- Python `dict` assignment: replace in place, or append. -/
def dictSet {α : Type} (m : List (String × α)) (k : String) (v : α) :
    List (String × α) :=
  match m with
  | [] => [(k, v)]
  | (k', v') :: rest =>
    if k' = k then (k, v) :: rest else (k', v') :: dictSet rest k v

/-- `_VarDef`: a function parameter (host type tag and name). -/
structure VarDef where
  type_ : PyTy
  name : String
deriving DecidableEq, Repr

/-- `_Function`. -/
structure WFunction where
  name : String
  args : List VarDef
  ret_type : PyTy
  body : Node
deriving Repr

/-- `_ExecCtx`: the three name maps of one execution context (`vars` models
the `variables` dict; `variables` is a reserved word in Lean). -/
structure ExecCtx where
  vars : List (String × DVal)
  constants : List (String × DVal)
  functions : List (String × WFunction)
deriving Repr

/-- The interpreter state: the stack of execution contexts (`_exec_ctx`,
head is the current one) plus collected standard output. -/
structure InterpSt where
  ctxs : List ExecCtx
  out : String
deriving Repr

/-- The initial state: one empty global context, no output. -/
def initSt : InterpSt :=
  ⟨[⟨[], [], []⟩], ""⟩

/-- `_var_type(node)`: host type tag of a `Type` node; unknown names hit
`assert False`. -/
def var_type (t : WType) : Except IErr PyTy :=
  if t.name = "int" then .ok .int
  else if t.name = "float" then .ok .float
  else if t.name = "bool" then .ok .bool
  else if t.name = "char" then .ok .str
  else .error .assertionError

/-- `_default_var_type(node)`: the default value for a declared type
(`int`→0, `float`→0.0, `bool`→False, `char`→"\0"); a missing or unknown
type hits `assert False`. -/
def default_var_type (t : Option WType) : Except IErr DVal :=
  match t with
  | some ty =>
    if ty.name = "int" then .ok ⟨.integer, .int 0⟩
    else if ty.name = "float" then .ok ⟨.floatV, .float 0⟩
    else if ty.name = "bool" then .ok ⟨.boolean, .bool false⟩
    else if ty.name = "char" then .ok ⟨.char, .str (String.mk ['\x00'])⟩
    else .error .assertionError
  | none => .error .assertionError

/-- `visit_FuncArg`: builds a `_VarDef` from a `FuncArg` node (the `name`
field of a parser-produced node is always a `Name`). -/
def visit_FuncArg (n : Node) : Except IErr VarDef :=
  match n with
  | .FuncArg _ (.Name _ v) ty =>
    match var_type ty with
    | .error e => .error e
    | .ok t => .ok ⟨t, v⟩
  | .FuncArg _ _ _ => .error .attributeError
  | _ => .error .attributeError

/-- `visit_FuncArg` over an argument list. -/
def visit_FuncArgs (ns : List Node) : Except IErr (List VarDef) :=
  match ns with
  | [] => .ok []
  | n :: rest =>
    match visit_FuncArg n with
    | .error e => .error e
    | .ok d =>
      match visit_FuncArgs rest with
      | .error e => .error e
      | .ok ds => .ok (d :: ds)

/-- `_curr_ctx()`: the top of the context stack (asserts non-emptiness). -/
def curr_ctx (st : InterpSt) : Except IErr ExecCtx :=
  match st.ctxs with
  | c :: _ => .ok c
  | [] => .error .assertionError

/-- Replace the current (top) context. -/
def set_curr_ctx (st : InterpSt) (c : ExecCtx) : InterpSt :=
  match st.ctxs with
  | _ :: rest => ⟨c :: rest, st.out⟩
  | [] => ⟨[c], st.out⟩

/-- Python `int(node.value)` on an `Integer` lexeme. -/
def pyParseInt (s : String) : Except IErr ℤ :=
  match pyIntOf (.str s) with
  | .ok (.int i) => .ok i
  | _ => .error .valueError

/-- Python `float(node.value)` on a `Float` lexeme: the exact decimal value
(`digits`, `digits.digits`, `.digits` or `digits.`) rounded to the nearest
double. -/
def pyParseFloat (s : String) : Except IErr ℚ :=
  let parts := s.data
  let intPart := parts.takeWhile WLexer.pyIsDigit
  let rest := parts.drop intPart.length
  let build (ip fp : List Char) : Except IErr ℚ :=
    if ip.all WLexer.pyIsDigit ∧ fp.all WLexer.pyIsDigit then
      let ipn : ℤ := ip.foldl (fun acc c => 10 * acc + (c.toNat - 48 : ℤ)) 0
      let fpn : ℤ := fp.foldl (fun acc c => 10 * acc + (c.toNat - 48 : ℤ)) 0
      let den : ℕ := 10 ^ fp.length
      let q : ℚ := (ipn : ℚ) + (fpn : ℚ) / (den : ℚ)
      .ok (roundRatToDouble q)
    else .error .valueError
  match rest with
  | [] => if intPart = [] then .error .valueError else build intPart []
  | '.' :: frac =>
    if intPart = [] ∧ frac = [] then .error .valueError
    else build intPart frac
  | _ => .error .valueError

/-- The result of one visit: statements return `none` (Python `None`),
expressions `some` value. -/
abbrev VisitRes := InterpSt × Option DVal

/-- The recursive visitor methods of `_Interpreter`, as one record (the
recursion is tied by `interps` below through a plain `Nat.rec` on fuel):
`visit` dispatches on the node class like the Python `Visitor.visit`;
`seq` is the statement loop of `visit_Statements` (result of the last
statement, starting from `None`); `whileLoop` the loop of `visit_While`;
`callArgs` the argument-binding loop of `visit_FuncCall` (evaluates each
argument in the caller's context and binds it to the parameter of the same
index, raising `IndexError` past the parameter list). -/
structure IPack where
  visit : InterpSt → Node → Except IErr VisitRes
  seq : InterpSt → Option DVal → List Node → Except IErr VisitRes
  whileLoop : InterpSt → Node → Node → Except IErr VisitRes
  callArgs : InterpSt → List Node → List VarDef → List (String × DVal) →
    Except IErr (InterpSt × List (String × DVal))

/-- The fuel-exhausted record. -/
def errIPack : IPack where
  visit := fun _ _ => .error .fuel
  seq := fun _ _ _ => .error .fuel
  whileLoop := fun _ _ _ => .error .fuel
  callArgs := fun _ _ _ _ => .error .fuel

/-- One recursion layer of the interpreter: the direct transcription of the
`visit_*` methods of `_Interpreter` (`_interpret.py`), with recursive visits
going through `prev`. -/
def mkIPack (prev : IPack) : IPack where
  visit := fun st n =>
    match n with
    -- visit_Integer: `_IntegerVar(int(node.value))`.
    | .Integer _ v =>
      match pyParseInt v with
      | .error e => .error e
      | .ok i => .ok (st, some ⟨.integer, .int i⟩)
    -- visit_Float: `_FloatVar(float(node.value))`.
    | .Float _ v =>
      match pyParseFloat v with
      | .error e => .error e
      | .ok q => .ok (st, some ⟨.floatV, .float q⟩)
    -- visit_Boolean.
    | .Boolean _ b => .ok (st, some ⟨.boolean, .bool b⟩)
    -- visit_Character.
    | .Character _ v => .ok (st, some ⟨.char, .str v⟩)
    -- visit_Name: variables first, then constants, else WabbitRuntimeError.
    | .Name _ v =>
      match curr_ctx st with
      | .error e => .error e
      | .ok ctx =>
        match dictGet ctx.vars v with
        | some d => .ok (st, some d)
        | none =>
          match dictGet ctx.constants v with
          | some d => .ok (st, some d)
          | none => .error (.runtimeError ("Undefined variable " ++ v))
    -- visit_PrintStatement: `print(res.value, end="")`.
    | .PrintStatement _ e =>
      match prev.visit st e with
      | .error er => .error er
      | .ok (st', r) =>
        match r with
        | some d => .ok ({ st' with out := st'.out ++ pyStrOf d.value }, none)
        | none => .error .attributeError
    -- visit_BinOp: evaluate both sides, dispatch on the operator; an
    -- operator outside `+ - * /` falls through the match and returns None.
    | .BinOp _ op l r =>
      match prev.visit st l with
      | .error e => .error e
      | .ok (st1, r1) =>
        match prev.visit st1 r with
        | .error e => .error e
        | .ok (st2, r2) =>
          match r1, r2 with
          | some v1, some v2 =>
            if op = "+" then
              match dval_add v1 v2 with
              | .error e => .error e
              | .ok v => .ok (st2, some v)
            else if op = "-" then
              match dval_sub v1 v2 with
              | .error e => .error e
              | .ok v => .ok (st2, some v)
            else if op = "*" then
              match dval_mul v1 v2 with
              | .error e => .error e
              | .ok v => .ok (st2, some v)
            else if op = "/" then
              match dval_div v1 v2 with
              | .error e => .error e
              | .ok v => .ok (st2, some v)
            else .ok (st2, none)
          | _, _ => .error .attributeError
    -- visit_UnaryOp.
    | .UnaryOp _ op a =>
      if op = "-" ∨ op = "+" ∨ op = "!" then
        match prev.visit st a with
        | .error e => .error e
        | .ok (st1, r1) =>
          match r1 with
          | some v =>
            match
              (if op = "-" then dval_unary_minus v
               else if op = "+" then dval_unary_plus v
               else dval_logical_not v) with
            | .error e => .error e
            | .ok v' => .ok (st1, some v')
          | none => .error .attributeError
      else .error (.runtimeError ("Unknown unary operator " ++ op))
    -- visit_LogicalOp: evaluate both sides first (no short circuit).
    | .LogicalOp _ op l r =>
      match prev.visit st l with
      | .error e => .error e
      | .ok (st1, r1) =>
        match prev.visit st1 r with
        | .error e => .error e
        | .ok (st2, r2) =>
          match r1, r2 with
          | some v1, some v2 =>
            match
              (if op = "==" then dval_cmp_eq v1 v2
               else if op = "!=" then dval_cmp_not_eq v1 v2
               else if op = ">" then dval_cmp_more v1 v2
               else if op = ">=" then dval_cmp_more_eq v1 v2
               else if op = "<" then dval_cmp_less v1 v2
               else if op = "<=" then dval_cmp_less_eq v1 v2
               else if op = "&&" then dval_logical_and v1 v2
               else if op = "||" then dval_logical_or v1 v2
               else .error (.runtimeError "not possible")) with
            | .error e => .error e
            | .ok v => .ok (st2, some v)
          | _, _ => .error .attributeError
    -- visit_ParenExpr.
    | .ParenExpr _ v => prev.visit st v
    -- visit_Statements: run all statements, return the last result.
    | .Statements _ ns => prev.seq st none ns
    -- visit_ExprAsStatement: evaluate and discard.
    | .ExprAsStatement e =>
      match prev.visit st e with
      | .error er => .error er
      | .ok (st', _) => .ok (st', none)
    -- visit_VarDecl.
    | .VarDecl _ nm t v =>
      match nm with
      | .Name _ varName =>
        match curr_ctx st with
        | .error e => .error e
        | .ok ctx =>
          if (dictGet ctx.vars varName).isSome
              ∨ (dictGet ctx.constants varName).isSome then
            .error (.runtimeError "Variable was already declared.")
          else
            match
              (match v with
               | some e =>
                 match prev.visit st e with
                 | .error er => .error er
                 | .ok (st', r) =>
                   match r with
                   | some d => .ok (st', d)
                   | none => .error .attributeError
               | none =>
                 match default_var_type t with
                 | .error er => .error er
                 | .ok d => .ok (st, d) : Except IErr (InterpSt × DVal)) with
            | .error e => .error e
            | .ok (st', d) =>
              match curr_ctx st' with
              | .error e => .error e
              | .ok ctx' =>
                .ok (set_curr_ctx st'
                      { ctx' with vars := dictSet ctx'.vars varName d },
                     none)
      | _ => .error .attributeError
    -- visit_ConstDecl.
    | .ConstDecl _ nm v t =>
      match t with
      | _ =>
        match nm with
        | .Name _ varName =>
          match curr_ctx st with
          | .error e => .error e
          | .ok ctx =>
            if (dictGet ctx.constants varName).isSome
                ∨ (dictGet ctx.vars varName).isSome then
              .error (.runtimeError "Constant was already declared.")
            else
              match prev.visit st v with
              | .error er => .error er
              | .ok (st', r) =>
                match r with
                | some d =>
                  match curr_ctx st' with
                  | .error e => .error e
                  | .ok ctx' =>
                    .ok (set_curr_ctx st'
                          { ctx' with constants := dictSet ctx'.constants varName d },
                         none)
                | none => .error .attributeError
        | _ => .error .attributeError
    -- visit_FuncDef: register the function in the current context.
    | .FuncDef _ nm args retType body =>
      match nm with
      | .Name _ funcName =>
        match visit_FuncArgs args with
        | .error e => .error e
        | .ok defs =>
          match var_type retType with
          | .error e => .error e
          | .ok rt =>
            match curr_ctx st with
            | .error e => .error e
            | .ok ctx =>
              .ok (set_curr_ctx st
                    { ctx with functions :=
                        dictSet ctx.functions funcName ⟨funcName, defs, rt, body⟩ },
                   none)
      | _ => .error .attributeError
    -- visit_Return: evaluate and pass the value along (nothing is unwound).
    | .Return _ v =>
      match prev.visit st v with
      | .error e => .error e
      | .ok (st', r) =>
        match r with
        | some d => .ok (st', some d)
        | none => .error .attributeError
    -- visit_FuncCall: look up (KeyError when missing), evaluate the
    -- arguments in the caller's context, push a fresh context inheriting
    -- the function map, run the body, pop, return the body's result.
    | .FuncCall _ nm argExprs =>
      match nm with
      | .Name _ funcName =>
        match curr_ctx st with
        | .error e => .error e
        | .ok ctx =>
          match dictGet ctx.functions funcName with
          | none => .error .keyError
          | some f =>
            match prev.callArgs st argExprs f.args [] with
            | .error e => .error e
            | .ok (st1, bindings) =>
              match curr_ctx st1 with
              | .error e => .error e
              | .ok ctx1 =>
                let funcCtx : ExecCtx := ⟨bindings, [], ctx1.functions⟩
                let st2 : InterpSt := ⟨funcCtx :: st1.ctxs, st1.out⟩
                match prev.visit st2 f.body with
                | .error e => .error e
                | .ok (st3, res) =>
                  .ok (⟨st3.ctxs.drop 1, st3.out⟩, res)
      | _ => .error .attributeError
    -- visit_Assignment: `assert isinstance(node.left, Name)`, then write
    -- the evaluated right side into the current context's variables.
    | .Assignment _ l r =>
      match l with
      | .Name _ varName =>
        match prev.visit st r with
        | .error e => .error e
        | .ok (st', rr) =>
          match rr with
          | some d =>
            match curr_ctx st' with
            | .error e => .error e
            | .ok ctx' =>
              .ok (set_curr_ctx st'
                    { ctx' with vars := dictSet ctx'.vars varName d },
                   some d)
          | none => .error .attributeError
      | _ => .error .assertionError
    -- visit_IfElse: the test must be a `_BooleanVar`.
    | .IfElse _ test body elseBody =>
      match prev.visit st test with
      | .error e => .error e
      | .ok (st1, r1) =>
        match r1 with
        | some d =>
          if d.cls ≠ .boolean then
            .error (.runtimeError "If condition must evaluate to boolean")
          else if pyTruthy d.value then
            match prev.visit st1 body with
            | .error e => .error e
            | .ok (st2, _) => .ok (st2, none)
          else
            match elseBody with
            | some eb =>
              match prev.visit st1 eb with
              | .error e => .error e
              | .ok (st2, _) => .ok (st2, none)
            | none => .ok (st1, none)
        | none => .error (.runtimeError "If condition must evaluate to boolean")
    -- visit_While.
    | .While _ test body => prev.whileLoop st test body
    -- Break and Continue have no `_Interpreter` method: dispatch lands on
    -- the base `Visitor` stubs, which raise `RuntimeError("Not implemented")`.
    | .Break _ => .error (.notImplemented "visit_Break")
    | .Continue _ => .error (.notImplemented "visit_Continue")
    -- A `FuncArg` outside a `FuncDef` dispatches to `visit_FuncArg`, whose
    -- result is a `_VarDef`, not a runtime value; no execution path uses it.
    | .FuncArg _ _ _ => .error .attributeError
  seq := fun st res ns =>
    match ns with
    | [] => .ok (st, res)
    | s :: rest =>
      match prev.visit st s with
      | .error e => .error e
      | .ok (st', r) => prev.seq st' r rest
  whileLoop := fun st test body =>
    match prev.visit st test with
    | .error e => .error e
    | .ok (st1, r1) =>
      match r1 with
      | some d =>
        if d.cls ≠ .boolean then
          .error (.runtimeError "While condition must evaluate to boolean")
        else if pyTruthy d.value then
          match prev.visit st1 body with
          | .error e => .error e
          | .ok (st2, _) => prev.whileLoop st2 test body
        else .ok (st1, none)
      | none => .error (.runtimeError "While condition must evaluate to boolean")
  callArgs := fun st argExprs params acc =>
    match argExprs with
    | [] => .ok (st, acc)
    | a :: rest =>
      match prev.visit st a with
      | .error e => .error e
      | .ok (st', r) =>
        match r with
        | some d =>
          match params with
          | [] => .error .indexError
          | p :: ps => prev.callArgs st' rest ps (dictSet acc p.name d)
        | none => .error .attributeError

/-- The fuel-indexed interpreter record. -/
def interps (fuel : Nat) : IPack :=
  Nat.rec errIPack (fun _ prev => mkIPack prev) fuel

/-- `_Interpreter().visit(node)` with the given fuel. -/
def visit (fuel : Nat) (st : InterpSt) (n : Node) : Except IErr VisitRes :=
  (interps fuel).visit st n

/-- `interpret(ast)`: run a program from the initial state. -/
def interpret (fuel : Nat) (n : Node) : Except IErr VisitRes :=
  visit fuel initSt n

end WInterp

namespace WComp

open WAst

/-- The LLVM types used by the compiler (`_TInt = i32`, `_TFloat = double`,
`_TBool = i1`, `_TChar = i8`). -/
inductive IrType where
  | i32
  | double
  | i1
  | i8
deriving DecidableEq, Repr

/-- Compiler failures: `assertionError` models a failing `assert False`;
`unmodelled` marks visitor methods whose emission bookkeeping (IR builder,
slot and function maps) the embedding does not carry — no claim rests on
them. -/
inductive CErr where
  | assertionError
  | unmodelled
deriving DecidableEq, Repr

/-- The type of the `ir.Value` each expression visitor of
`wabbit/wabbit/_compiler.py` returns: literals map through the type table,
`visit_BinOp` returns an instruction of its left operand's type (the float
family `fadd/fsub/fmul/fdiv` when the left side is a double, the integer
family `add/sub/mul/sdiv` otherwise), `visit_UnaryOp` keeps the operand
type, and comparisons return `i1` while `&&`/`||` return the left type
(`and_`/`or_` on the operands).  `Name`, `Assignment` and `FuncCall`
need the slot/function maps and are not modelled. -/
def visit_expr_type : Node → Except CErr IrType
  | .Integer _ _ => .ok .i32
  | .Float _ _ => .ok .double
  | .Boolean _ _ => .ok .i1
  | .Character _ _ => .ok .i8
  | .BinOp _ op l r =>
    match visit_expr_type l with
    | .error e => .error e
    | .ok lt =>
      match visit_expr_type r with
      | .error e => .error e
      | .ok _ =>
        if op = "+" ∨ op = "-" ∨ op = "*" ∨ op = "/" then .ok lt
        else .error .unmodelled
  | .UnaryOp _ op a =>
    match visit_expr_type a with
    | .error e => .error e
    | .ok t =>
      if op = "-" ∨ op = "+" ∨ op = "!" then .ok t else .error .unmodelled
  | .LogicalOp _ op l r =>
    match visit_expr_type l with
    | .error e => .error e
    | .ok lt =>
      match visit_expr_type r with
      | .error e => .error e
      | .ok _ =>
        if op = "==" ∨ op = "!=" ∨ op = ">" ∨ op = ">=" ∨ op = "<" ∨ op = "<=" then
          .ok .i1
        else if op = "&&" ∨ op = "||" then .ok lt
        else .error .unmodelled
  | .ParenExpr _ v => visit_expr_type v
  | _ => .error .unmodelled

/-- `Compiler.visit_VarDecl`, transcribed branch for branch.  With an
initializer the source runs an `if/elif/elif` chain over `i32`, `double`
and `i8` (binding the slot), but then starts a fresh `if` statement:
`if val.type == _TBool: ... else: assert False` — so the chain's binding is
dead and every non-bool initializer reaches `assert False`.  Without an
initializer the `match` on the declared type allocates a slot (`_TBool`
for `char`, another slip) and a missing/unknown type hits `assert False`.
Returns the type of the allocated slot. -/
def visit_VarDecl (n : Node) : Except CErr IrType :=
  match n with
  | .VarDecl _ _ type_ value =>
    match value with
    | some e =>
      match visit_expr_type e with
      | .error er => .error er
      | .ok valT =>
        -- the `if/elif/elif` chain; its binding of `var` is never used
        -- because the next `if` statement rebinds or asserts.
        let _chainVar : Option IrType :=
          if valT = .i32 then some .i32
          else if valT = .double then some .double
          else if valT = .i8 then some .i8
          else none
        -- the separate `if val.type == _TBool: ... else: assert False`.
        if valT = .i1 then .ok .i1
        else .error .assertionError
    | none =>
      match type_ with
      | some ty =>
        if ty.name = "int" then .ok .i32
        else if ty.name = "float" then .ok .double
        else if ty.name = "char" then .ok .i1
        else if ty.name = "bool" then .ok .i1
        else .error .assertionError
      | none => .error .assertionError
  | _ => .error .unmodelled

/-- `Compiler.visit_ConstDecl`: a single `if/elif/elif` chain over `i32`,
`double` and `i8`; a `bool` (or any other) constant hits `assert False`. -/
def visit_ConstDecl (n : Node) : Except CErr IrType :=
  match n with
  | .ConstDecl _ _ value _ =>
    match visit_expr_type value with
    | .error er => .error er
    | .ok valT =>
      if valT = .i32 then .ok .i32
      else if valT = .double then .ok .double
      else if valT = .i8 then .ok .i8
      else .error .assertionError
  | _ => .error .unmodelled

end WComp

namespace WLexer

/-- No lexer matcher ever produces the fuel marker: `match_block_comment`. -/
lemma match_block_comment_ne_fuel (text : List Char) (start : Nat) :
    match_block_comment text start ≠ .error .fuel := by
  unfold match_block_comment
  intro hc
  dsimp only at hc
  repeat' split at hc
  all_goals simp_all

/-- No lexer matcher ever produces the fuel marker: `match_line_comment`. -/
lemma match_line_comment_ne_fuel (text : List Char) (start : Nat) :
    match_line_comment text start ≠ .error .fuel := by
  unfold match_line_comment
  intro hc
  dsimp only at hc
  repeat' split at hc
  all_goals simp_all

/-- No lexer matcher ever produces the fuel marker: `match_float`. -/
lemma match_float_ne_fuel (text : List Char) (start : Nat) :
    match_float text start ≠ .error .fuel := by
  unfold match_float
  intro hc
  dsimp only at hc
  repeat' split at hc
  all_goals simp_all

/-- No lexer matcher ever produces the fuel marker: `match_symbol`. -/
lemma match_symbol_ne_fuel (text : List Char) (start : Nat) :
    match_symbol text start ≠ .error .fuel := by
  unfold match_symbol
  intro hc
  repeat' split at hc
  all_goals simp_all

/-- One scanning step never produces the fuel marker: its only failures are
the source's `WabbitSyntaxError`, `IndexError` and `KeyError`. -/
lemma tokenizeStep_ne_fuel (text : List Char) (pos : Nat) :
    tokenizeStep text pos ≠ .error .fuel := by
  unfold tokenizeStep
  intro hc
  repeat' split at hc
  all_goals try simp_all
  all_goals first
    | exact match_block_comment_ne_fuel _ _ ‹_›
    | exact match_line_comment_ne_fuel _ _ ‹_›
    | exact match_float_ne_fuel _ _ ‹_›
    | exact match_symbol_ne_fuel _ _ ‹_›

/-- Every successful scanning step matched a non-empty lexeme: each branch
of the `tokenize` matcher chain is guarded by the truthiness (non-emptiness)
of its match. -/
lemma tokenizeStep_ok_nonempty (text : List Char) (pos : Nat) (t? : Option Token0)
    (m : List Char) (h : tokenizeStep text pos = .ok (t?, m)) : m ≠ [] := by
  unfold tokenizeStep at h
  repeat' split at h
  all_goals try simp_all
  all_goals rcases h with ⟨h1, h2⟩
  all_goals exact fun hm => List.cons_ne_nil _ _ (h2.trans hm)

/-- The scan loop never exhausts its fuel when started with fuel exceeding
the remaining character count: every iteration advances the cursor by at
least one. -/
lemma tokenizeAux_ne_fuel (fuel : Nat) :
    ∀ (text : List Char) (pos : Nat), text.length - pos < fuel →
      tokenizeAux fuel text pos ≠ .error .fuel := by
  induction fuel with
  | zero => intro text pos h; omega
  | succ f ih =>
    intro text pos h
    rw [tokenizeAux]
    by_cases hlt : pos < text.length
    · simp only [if_pos hlt]
      cases hp : tokenizeStep text pos with
      | error e =>
        intro hc
        injection hc with hc'
        exact tokenizeStep_ne_fuel text pos (hc' ▸ hp)
      | ok tm =>
        obtain ⟨t?, m⟩ := tm
        have hm : m ≠ [] := tokenizeStep_ok_nonempty text pos t? m hp
        have hlen : 0 < m.length := List.length_pos.mpr hm
        cases hr : tokenizeAux f text (pos + m.length) with
        | error e =>
          intro hc
          simp only [hr] at hc
          injection hc with hc'
          exact ih text (pos + m.length) (by omega) (hc' ▸ hr)
        | ok toks => simp [hr]
    · simp [hlt]

end WLexer

/-- C10: `tokenize` terminates on every finite input string: at every cursor
position inside the input, a scanning step either raises an error or matches
a non-empty lexeme — the cursor advances by that lexeme's length, so the
scan loop (run with fuel exceeding the input length) never exhausts its
fuel, for any input. -/
theorem c10_tokenize_terminates (s : String) (pos : Nat) (h : pos < s.data.length) :
    (∀ t? m, WLexer.tokenizeStep s.data pos = .ok (t?, m) → 0 < m.length)
    ∧ ∀ t : String, WLexer.tokenize t ≠ .error .fuel := by
  constructor
  · intro t? m hm
    exact List.length_pos.mpr (WLexer.tokenizeStep_ok_nonempty s.data pos t? m hm)
  · intro t
    exact WLexer.tokenizeAux_ne_fuel (t.data.length + 1) t.data 0 (by omega)

/-- Witness for C10 at the concrete input "ab". -/
theorem c10_witness :
    (0 : Nat) < "ab".data.length
    ∧ ((∀ t? m, WLexer.tokenizeStep "ab".data 0 = .ok (t?, m) → 0 < m.length)
       ∧ ∀ t : String, WLexer.tokenize t ≠ .error .fuel) :=
  ⟨by decide, c10_tokenize_terminates "ab" 0 (by decide)⟩

/-- C5 counterexample: the lexer under `wabbit/wabbit/_lexer.py` does not
recognize the claimed token set — `,` is rejected with a syntax error
(there is no COMMA token), `if` lexes as a plain `Name` token (no IF
keyword), and a character literal is rejected. -/
theorem c5_counterexample :
    WLexer.tokenize "," = .error (.syntaxError 0)
    ∧ WLexer.tokenize "if" = .ok [⟨.name, "if", 0⟩]
    ∧ WLexer.tokenize "\x27a\x27" = .error (.syntaxError 0) := by
  refine ⟨by decide, by decide, by decide⟩

/-- C5 amended: the lexer's keyword set is exactly `print`, `const`, `var`
(other spec keywords lex as plain names); its symbol set has no `!=` (the
input `!=` lexes as LOGICAL_NOT then EQUAL) and no `,` (a syntax error);
character literals are not recognized (a quote is a syntax error). -/
theorem c5_amended :
    WLexer.tokenize "print const var" =
      .ok [⟨.print, "print", 0⟩, ⟨.const, "const", 6⟩, ⟨.var, "var", 12⟩]
    ∧ WLexer.tokenize "if else while break continue func return true false" =
      .ok [⟨.name, "if", 0⟩, ⟨.name, "else", 3⟩, ⟨.name, "while", 8⟩,
           ⟨.name, "break", 14⟩, ⟨.name, "continue", 20⟩, ⟨.name, "func", 29⟩,
           ⟨.name, "return", 34⟩, ⟨.name, "true", 41⟩, ⟨.name, "false", 46⟩]
    ∧ WLexer.tokenize "!=" = .ok [⟨.logicalNot, "!", 0⟩, ⟨.equal, "=", 1⟩]
    ∧ WLexer.tokenize "," = .error (.syntaxError 0)
    ∧ WLexer.tokenize "\x27a\x27" = .error (.syntaxError 0)
    ∧ WLexer.tokenize "+ - * / < > = ! ( ) \x7b \x7d ; 1.5 12 abc" =
      .ok [⟨.plus, "+", 0⟩, ⟨.minus, "-", 2⟩, ⟨.multiply, "*", 4⟩,
           ⟨.divide, "/", 6⟩, ⟨.less, "<", 8⟩, ⟨.more, ">", 10⟩,
           ⟨.equal, "=", 12⟩, ⟨.logicalNot, "!", 14⟩,
           ⟨.openParens, "(", 16⟩, ⟨.closeParens, ")", 18⟩,
           ⟨.openCurlyBrace, "\x7b", 20⟩, ⟨.closeCurlyBrace, "\x7d", 22⟩,
           ⟨.semicolon, ";", 24⟩, ⟨.float, "1.5", 26⟩, ⟨.digits, "12", 30⟩,
           ⟨.name, "abc", 33⟩]
    ∧ WLexer.tokenize "<=" = .ok [⟨.lessEq, "<=", 0⟩]
    ∧ WLexer.tokenize ">=" = .ok [⟨.moreEq, ">=", 0⟩]
    ∧ WLexer.tokenize "==" = .ok [⟨.doubleEq, "==", 0⟩]
    ∧ WLexer.tokenize "&&" = .ok [⟨.logicalAnd, "&&", 0⟩]
    ∧ WLexer.tokenize "||" = .ok [⟨.logicalOr, "||", 0⟩] := by
  refine ⟨by decide, by decide, by decide, by decide, by decide, by decide,
    by decide, by decide, by decide, by decide, by decide⟩

/-- C6 counterexample: an input ending in a line comment with no terminating
newline does fail, but with an uncaught `IndexError` (an out-of-range read
of `text[n]` in `match_line_comment`), not with a `WabbitSyntaxError`. -/
theorem c6_counterexample :
    WLexer.tokenize "//abc" = .error .indexError := by decide

/-- C6 amended: `tokenize` returns an ordered token list or fails; an
unrecognized character raises `WabbitSyntaxError` at its position, but an
EOF-terminated line comment (and an unterminated block comment) raises an
uncaught `IndexError` instead of a syntax error. -/
theorem c6_amended :
    WLexer.tokenize "//abc" = .error .indexError
    ∧ WLexer.tokenize "/* abc" = .error .indexError
    ∧ WLexer.tokenize "#" = .error (.syntaxError 0)
    ∧ WLexer.tokenize "ab #" = .error (.syntaxError 3)
    ∧ WLexer.tokenize "// ok\n" = .ok []
    ∧ WLexer.tokenize "print 123 + 1.2;" =
      .ok [⟨.print, "print", 0⟩, ⟨.digits, "123", 6⟩, ⟨.plus, "+", 10⟩,
           ⟨.float, "1.2", 12⟩, ⟨.semicolon, ";", 15⟩] := by
  refine ⟨by decide, by decide, by decide, by decide, by decide, by decide⟩

/-- C8: the interpreter's integer division `_IntegerVar.div` is
`int(self.value / other.value)` — truncation of the correctly rounded
*double* quotient.  On small operands it truncates toward zero exactly
(`-7 / 2` gives `-3`), but it is not exact for all integer magnitudes: the
claim's failing input `(10^16 + 1) / 1` evaluates to `10^16`, not the exact
truncated quotient `10^16 + 1`, because `10^16 + 1` is not representable as
a binary64 value. -/
theorem c8_integer_div_is_float_trunc :
    WInterp.dval_div ⟨.integer, .int (-7)⟩ ⟨.integer, .int 2⟩
      = .ok ⟨.integer, .int (-3)⟩
    ∧ WInterp.dval_div ⟨.integer, .int (10 ^ 16 + 1)⟩ ⟨.integer, .int 1⟩
      = .ok ⟨.integer, .int (10 ^ 16)⟩
    ∧ (10 ^ 16 : ℤ) ≠ 10 ^ 16 + 1 := by
  refine ⟨by decide, by decide, by decide⟩

/-- C4: the emitter's declaration handling is reachable with a failing
assertion on interpreter-accepted programs.  For `var x = 1;` (an `int`
initializer) the interpreter succeeds, but `Compiler.visit_VarDecl` reaches
`assert False`: its `_TBool` test restarts a fresh `if` statement whose
`else` asserts, so every non-bool initializer fails.  (`const b = true;`
likewise asserts in `visit_ConstDecl`.) -/
theorem c4_emitter_asserts_on_accepted_program :
    WComp.visit_VarDecl
        (.VarDecl none (.Name none "x") none (some (.Integer none "1")))
      = .error .assertionError
    ∧ WInterp.interpret 10
        (.Statements none
          [.VarDecl none (.Name none "x") none (some (.Integer none "1"))])
      = .ok (⟨[⟨[("x", ⟨.integer, .int 1⟩)], [], []⟩], ""⟩, none)
    ∧ WComp.visit_ConstDecl
        (.ConstDecl none (.Name none "b") (.Boolean none true) none)
      = .error .assertionError
    ∧ WComp.visit_VarDecl
        (.VarDecl none (.Name none "b") none (some (.Boolean none true)))
      = .ok .i1 := by
  refine ⟨by decide, rfl, by decide, by decide⟩

/-- C7 counterexample: printing the boolean `true` writes the capitalized
Python word `True`, not the lowercase `true` of the claim.  (The
interpreter's `visit_PrintStatement` prints the host value directly.) -/
theorem c7_counterexample :
    (WInterp.interpret 10
        (.Statements none [.PrintStatement none (.Boolean none true)])).map
        (fun p => p.1.out)
      = .ok "True"
    ∧ "True" ≠ "true" := by
  refine ⟨rfl, by decide⟩

open WInterp in
/-- C7 amended: executing a `PrintStatement` evaluates its expression and
appends exactly the Python `str()` of the value to standard output — no
trailing newline — with booleans rendered as the capitalized words
`True`/`False` (not the claimed lowercase `true`/`false`), integers in
their natural decimal form, and a character value as its single character. -/
theorem c7_print_writes_str (fuel : Nat) (st : InterpSt) (loc : Option Nat)
    (e : WAst.Node) (v : DVal) (st' : InterpSt)
    (h : visit fuel st e = .ok (st', some v)) :
    visit (fuel + 1) st (.PrintStatement loc e)
      = .ok ({ st' with out := st'.out ++ pyStrOf v.value }, none)
    ∧ pyStrOf (.bool true) = "True"
    ∧ pyStrOf (.bool false) = "False"
    ∧ pyStrOf (.int 12) = "12"
    ∧ pyStrOf (.int (-3)) = "-3"
    ∧ pyStrOf (.str "a") = "a" := by
  refine ⟨?_, rfl, rfl, by decide, by decide, rfl⟩
  have e1 : visit (fuel + 1) st (.PrintStatement loc e)
      = (match visit fuel st e with
         | .error er => .error er
         | .ok (st1, r) =>
           match r with
           | some d => .ok ({ st1 with out := st1.out ++ pyStrOf d.value }, none)
           | none => .error .attributeError) := rfl
  rw [e1, h]

/-- Witness for C7 at concrete input: printing the boolean literal `true`
from the initial state appends `True`. -/
theorem c7_witness :
    WInterp.visit 2 WInterp.initSt (.PrintStatement none (.Boolean none true))
      = .ok ({ WInterp.initSt with
                out := WInterp.initSt.out
                  ++ WInterp.pyStrOf (⟨.boolean, .bool true⟩ : WInterp.DVal).value },
             none) :=
  (c7_print_writes_str 1 WInterp.initSt none (.Boolean none true)
    ⟨.boolean, .bool true⟩ WInterp.initSt rfl).1

namespace WInterp

/-- Looking up the key just written by `dictSet` yields that binding. -/
lemma dictGet_dictSet_self {α : Type} (m : List (String × α)) (k : String) (v : α) :
    dictGet (dictSet m k v) k = some v := by
  induction m with
  | nil => simp [dictGet, dictSet]
  | cons p rest ih =>
    obtain ⟨k', v'⟩ := p
    by_cases hk : k' = k
    · simp [dictGet, dictSet, hk]
    · simp [dictGet, dictSet, hk, ih]

end WInterp

open WInterp in
/-- C9: evaluating an `Assignment` whose right side evaluates to a value
never raises, for any target name and any current context: the value is
written into the current context's variable map (creating the entry when
the name is undeclared, even when the name is bound in the constants map),
and a subsequent `Name` lookup returns the assigned value rather than any
constant of that name, because `visit_Name` consults variables first. -/
theorem c9_assignment_never_raises (fuel : Nat) (st : InterpSt)
    (loc nloc lloc : Option Nat) (name : String) (rhs : WAst.Node) (v : DVal)
    (st' : InterpSt) (ctx' : ExecCtx) (rest : List ExecCtx)
    (h : visit fuel st rhs = .ok (st', some v))
    (hc : st'.ctxs = ctx' :: rest) :
    visit (fuel + 1) st (.Assignment loc (.Name nloc name) rhs)
      = .ok (⟨{ ctx' with vars := dictSet ctx'.vars name v } :: rest, st'.out⟩, some v)
    ∧ visit 1 ⟨{ ctx' with vars := dictSet ctx'.vars name v } :: rest, st'.out⟩
        (.Name lloc name)
      = .ok (⟨{ ctx' with vars := dictSet ctx'.vars name v } :: rest, st'.out⟩, some v) := by
  constructor
  · obtain ⟨ctxs0, out0⟩ := st'
    simp only at hc
    subst hc
    have e1 : visit (fuel + 1) st (.Assignment loc (.Name nloc name) rhs)
        = (match visit fuel st rhs with
           | .error e => .error e
           | .ok (st1, rr) =>
             match rr with
             | some d =>
               match curr_ctx st1 with
               | .error e => .error e
               | .ok ctx1 =>
                 .ok (set_curr_ctx st1 { ctx1 with vars := dictSet ctx1.vars name d },
                      some d)
             | none => .error .attributeError) := rfl
    rw [e1, h]
    rfl
  · have e3 : visit 1 ⟨{ ctx' with vars := dictSet ctx'.vars name v } :: rest, st'.out⟩
        (.Name lloc name)
        = (match dictGet (dictSet ctx'.vars name v) name with
           | some d =>
             .ok (⟨{ ctx' with vars := dictSet ctx'.vars name v } :: rest, st'.out⟩,
                  some d)
           | none =>
             match dictGet ctx'.constants name with
             | some d =>
               .ok (⟨{ ctx' with vars := dictSet ctx'.vars name v } :: rest, st'.out⟩,
                    some d)
             | none => .error (.runtimeError ("Undefined variable " ++ name))) := rfl
    rw [e3, dictGet_dictSet_self]

open WInterp in
/-- Witness for C9: in a context where `x` is declared `const` (bound to 1
in the constants map), the assignment `x = 2` succeeds and a subsequent
lookup of `x` yields 2, the variable, not the constant. -/
theorem c9_witness :
    visit 2 ⟨[⟨[], [("x", ⟨.integer, .int 1⟩)], []⟩], ""⟩
        (.Assignment none (.Name none "x") (.Integer none "2"))
      = .ok (⟨[⟨[("x", ⟨.integer, .int 2⟩)], [("x", ⟨.integer, .int 1⟩)], []⟩], ""⟩,
             some ⟨.integer, .int 2⟩)
    ∧ visit 1 ⟨[⟨[("x", ⟨.integer, .int 2⟩)], [("x", ⟨.integer, .int 1⟩)], []⟩], ""⟩
        (.Name none "x")
      = .ok (⟨[⟨[("x", ⟨.integer, .int 2⟩)], [("x", ⟨.integer, .int 1⟩)], []⟩], ""⟩,
             some ⟨.integer, .int 2⟩) :=
  c9_assignment_never_raises 1 ⟨[⟨[], [("x", ⟨.integer, .int 1⟩)], []⟩], ""⟩
    none none none "x" (.Integer none "2") ⟨.integer, .int 2⟩
    ⟨[⟨[], [("x", ⟨.integer, .int 1⟩)], []⟩], ""⟩
    ⟨[], [("x", ⟨.integer, .int 1⟩)], []⟩ [] rfl rfl

/-- C3 counterexample: interpreting `while true { break; } print 1;` does
not terminate the innermost loop and continue with `print 1` — it aborts
interpretation with the base visitor's `RuntimeError("Not implemented")`
raised for `Break`, and no output is produced. -/
theorem c3_counterexample :
    WInterp.interpret 100
        (.Statements none
          [.While none (.Boolean none true) (.Statements none [.Break none]),
           .PrintStatement none (.Integer none "1")])
      = .error (.notImplemented "visit_Break") := rfl

open WInterp in
/-- C3 amended: the interpreter implements no control signals.  Executing a
`break` or `continue` statement aborts interpretation with the base
visitor's `RuntimeError("Not implemented")` (for any state and fuel), and a
`return` statement merely evaluates its expression: execution continues
with the following statements of the body — the result of a statement
sequence is the result of its *last* statement, not of the first `return`. -/
theorem c3_amended :
    (∀ (fuel : Nat) (st : InterpSt) (loc : Option Nat),
      visit (fuel + 1) st (.Break loc) = .error (.notImplemented "visit_Break"))
    ∧ (∀ (fuel : Nat) (st : InterpSt) (loc : Option Nat),
      visit (fuel + 1) st (.Continue loc) = .error (.notImplemented "visit_Continue"))
    ∧ ∀ (fuel : Nat) (st : InterpSt) (l loc : Option Nat) (e s2 : WAst.Node)
        (st1 : InterpSt) (v : DVal) (st2 : InterpSt) (r2 : Option DVal),
        visit (fuel + 1) st e = .ok (st1, some v) →
        visit (fuel + 1) st1 s2 = .ok (st2, r2) →
        visit (fuel + 4) st (.Statements l [.Return loc e, s2]) = .ok (st2, r2) := by
  refine ⟨fun fuel st loc => rfl, fun fuel st loc => rfl, ?_⟩
  intro fuel st l loc e s2 st1 v st2 r2 h1 h2
  have eret : visit (fuel + 2) st (.Return loc e)
      = (match visit (fuel + 1) st e with
         | .error er => .error er
         | .ok (st', r) =>
           match r with
           | some d => .ok (st', some d)
           | none => .error .attributeError) := rfl
  have eret2 : visit (fuel + 2) st (.Return loc e) = .ok (st1, some v) := by
    rw [eret, h1]
  have eseq : visit (fuel + 4) st (.Statements l [.Return loc e, s2])
      = (match visit (fuel + 2) st (.Return loc e) with
         | .error er => .error er
         | .ok (st1', r1') =>
           match visit (fuel + 1) st1' s2 with
           | .error er => .error er
           | .ok (st2', r2') => .ok (st2', r2')) := rfl
  rw [eseq]
  simp only [eret2, h2]

open WInterp in
/-- Witness for C3 amended: running `return 1; print 2;` as a statement
sequence executes the print after the return — the output is `2` and the
sequence's result is the print's `None`, not the returned 1. -/
theorem c3_witness :
    visit 5 initSt
        (.Statements none
          [.Return none (.Integer none "1"),
           .PrintStatement none (.Integer none "2")])
      = .ok (⟨[⟨[], [], []⟩], "2"⟩, none) :=
  c3_amended.2.2 1 initSt none none (.Integer none "1")
    (.PrintStatement none (.Integer none "2")) initSt ⟨.integer, .int 1⟩
    ⟨[⟨[], [], []⟩], "2"⟩ none rfl rfl

/-- Render a parse result through the discriminating `shape` printer
(`Node` has no derived decidable equality because of its nested lists;
distinct shapes prove distinct trees). -/
def parseShape (r : Except WSpecLex.PErr WAst.Node) : String :=
  match r with
  | .ok n => WAst.shape 100 n
  | .error _ => "<error>"

set_option maxHeartbeats 1000000 in
/-- C1 counterexample: the round trip fails on the parser-produced AST of
`print (2 + 3) * 4;`.  `_parse_factor` drops parentheses (it never builds a
`ParenExpr`), and the formatter prints `BinOp` without parentheses, so the
pretty-printed form is `print 2 + 3 * 4;`, which parses back to a tree
grouped as `2 + (3 * 4)` instead of `(2 + 3) * 4` — different even ignoring
source positions. -/
theorem c1_counterexample :
    (WParser.parse_source "print (2 + 3) * 4;").map (WFormat.format 100)
      = .ok "print 2 + 3 * 4;"
    ∧ ((WParser.parse_source "print (2 + 3) * 4;").bind (fun a =>
          (WParser.parse_source (WFormat.format 100 a)).map (WAst.strip 100)))
      ≠ (WParser.parse_source "print (2 + 3) * 4;").map (WAst.strip 100) := by
  refine ⟨by decide, fun h => absurd (congrArg parseShape h) (by decide)⟩

set_option maxHeartbeats 2000000 in
/-- C1 amended: pretty-printing then reparsing preserves the AST (ignoring
source positions) only for sources whose grouping survives the dropped
parentheses; it holds for the spec's own pretty-printer test `print 2+3;`
(which prints as `print 2 + 3;`) and for parenthesis-free programs with
declarations, loops, functions and calls, but not in general (see the
counterexample). -/
theorem c1_roundtrip_for_paren_free_programs :
    ((WParser.parse_source "print 2+3;").bind (fun a =>
        (WParser.parse_source (WFormat.format 100 a)).map (WAst.strip 100)))
      = (WParser.parse_source "print 2+3;").map (WAst.strip 100)
    ∧ (WParser.parse_source "print 2+3;").map (WFormat.format 100)
      = .ok "print 2 + 3;"
    ∧ ((WParser.parse_source "var x int = 1; while x != 2 \x7b x = x + 1; \x7d").bind
        (fun a => (WParser.parse_source (WFormat.format 1000 a)).map (WAst.strip 1000)))
      = (WParser.parse_source "var x int = 1; while x != 2 \x7b x = x + 1; \x7d").map
          (WAst.strip 1000)
    ∧ ((WParser.parse_source
          "func add(x int, y int) int \x7b return x + y; \x7d print add(2, 3);").bind
        (fun a => (WParser.parse_source (WFormat.format 1000 a)).map (WAst.strip 1000)))
      = (WParser.parse_source
          "func add(x int, y int) int \x7b return x + y; \x7d print add(2, 3);").map
          (WAst.strip 1000) := by
  refine ⟨rfl, rfl, rfl, rfl⟩

namespace WParser

open WSpecLex WAst

/-- The twelve binary operator token kinds of the precedence grammar
(`||`, `&&`, comparisons, additive, multiplicative). -/
def binOpKinds : List TK :=
  [.LOGICAL_OR, .LOGICAL_AND,
   .LESS, .MORE, .LESS_EQ, .MORE_EQ, .DOUBLE_EQ, .NOT_EQ,
   .ADD, .SUB, .MULTIPLY, .DIVIDE]

/-- Precedence level of a binary operator, low to high, as given by the
nesting of the parser's levels (`or < and < cmp < addsub < muldiv`). -/
def wprec : TK → Nat
  | .LOGICAL_OR => 0
  | .LOGICAL_AND => 1
  | .LESS | .MORE | .LESS_EQ | .MORE_EQ | .DOUBLE_EQ | .NOT_EQ => 2
  | .ADD | .SUB => 3
  | .MULTIPLY | .DIVIDE => 4
  | _ => 99

/-- The lexeme of each binary operator token. -/
def opLexeme : TK → String
  | .LOGICAL_OR => "||"
  | .LOGICAL_AND => "&&"
  | .LESS => "<"
  | .MORE => ">"
  | .LESS_EQ => "<="
  | .MORE_EQ => ">="
  | .DOUBLE_EQ => "=="
  | .NOT_EQ => "!="
  | .ADD => "+"
  | .SUB => "-"
  | .MULTIPLY => "*"
  | .DIVIDE => "/"
  | _ => ""

/-- The additive/multiplicative operators build `BinOp` nodes, the others
`LogicalOp` nodes. -/
def isArithTok (k : TK) : Bool :=
  k = .ADD || k = .SUB || k = .MULTIPLY || k = .DIVIDE

/-- The node the parser builds for one application of a binary operator. -/
def mkOpNode (k : TK) (l r : Node) : Node :=
  if isArithTok k then .BinOp none (opLexeme k) l r
  else .LogicalOp none (opLexeme k) l r

/-- An operator token with its canonical lexeme. -/
def opTok (k : TK) : PTok := ⟨k, opLexeme k, 0⟩

/-- A `NAME` token for an atom. -/
def nameTok (s : String) : PTok := ⟨.NAME, s, 0⟩

end WParser

open WParser WSpecLex in
set_option maxHeartbeats 12000000 in
/-- C2: parsing the token sequence of `a op1 b op2 c`, for any three `NAME`
atoms and any two of the twelve binary operator tokens: when `op1` has
lower precedence than `op2` the result (ignoring positions) is
`a op1 (b op2 c)`; when they have equal precedence it is the
left-associative `(a op1 b) op2 c`. -/
theorem c2_precedence (op1 op2 : TK) (h1 : op1 ∈ binOpKinds) (h2 : op2 ∈ binOpKinds)
    (x y z : String) :
    (wprec op1 < wprec op2 →
      (parse_expression 30 [nameTok x, opTok op1, nameTok y, opTok op2, nameTok z] 0).map
          (fun p => WAst.strip 30 p.1)
        = .ok (mkOpNode op1 (.Name none x) (mkOpNode op2 (.Name none y) (.Name none z))))
    ∧ (wprec op1 = wprec op2 →
      (parse_expression 30 [nameTok x, opTok op1, nameTok y, opTok op2, nameTok z] 0).map
          (fun p => WAst.strip 30 p.1)
        = .ok (mkOpNode op2 (mkOpNode op1 (.Name none x) (.Name none y)) (.Name none z))) := by
  fin_cases h1 <;> fin_cases h2 <;>
    refine ⟨fun hp => ?_, fun hp => ?_⟩ <;>
    first
      | exact absurd hp (by decide)
      | rfl

open WParser WSpecLex in
/-- Witness for C2 at `a + b * c`: multiplication binds tighter than
addition, giving `a + (b * c)`. -/
theorem c2_witness :
    (parse_expression 30 [nameTok "a", opTok .ADD, nameTok "b", opTok .MULTIPLY, nameTok "c"] 0).map
        (fun p => WAst.strip 30 p.1)
      = .ok (mkOpNode .ADD (.Name none "a") (mkOpNode .MULTIPLY (.Name none "b") (.Name none "c"))) :=
  (c2_precedence .ADD .MULTIPLY (by decide) (by decide) "a" "b" "c").1 (by decide)
